import Mathlib

/-!
Shallow embedding of `src/messy_data_generator.py` (class
`AdvancedMessyDataGenerator`).  Python floats are modelled as rationals,
pandas timestamps as rational seconds since the Unix epoch, and every call
into the `random` / `numpy.random` modules takes its outcome from an
explicit oracle argument, so that theorems quantify over all possible runs.
-/

namespace MessyGen

/-- A cell value of a pandas DataFrame: `None`/`NaN` (null), a number,
a string, a timestamp (seconds since epoch), or `pd.NaT`. -/
inductive Value where
  | null : Value
  | num (x : Rat) : Value
  | str (s : String) : Value
  | dt (t : Rat) : Value
  | naT : Value
  deriving DecidableEq, Repr

/-- `pd.isnull`: `None`, `NaN` and `NaT` all count as null. -/
def Value.isNull : Value → Bool
  | .null => true
  | .naT => true
  | _ => false

/-- A DataFrame: a fixed column-name list and rows of cell values
(each row lists its cells in column order). -/
structure Table where
  cols : List String
  rows : List (List Value)
  deriving DecidableEq, Repr

/-- Number of cells in a row that are null. -/
def rowNulls (r : List Value) : Nat := (r.filter (fun v => v.isNull)).length

/-- Total number of null cells in the table (`df.isnull().sum().sum()`). -/
def Table.nullCount (t : Table) : Nat := (t.rows.map rowNulls).sum

/-- Well-formedness: every row has exactly one cell per column. -/
def Table.wf (t : Table) : Prop := ∀ r ∈ t.rows, r.length = t.cols.length

/-- `random.choice(l)` / `np.random.choice`: the oracle supplies an
arbitrary natural number `i`, reduced mod the length, so that over all
oracles exactly the elements of `l` are reachable (for nonempty `l`). -/
def pick {α : Type} (l : List α) (d : α) (i : Nat) : α :=
  l.getD (i % l.length) d

/-- Python `int()` applied to the nonnegative products `len * rate`
appearing in the generator: floor to a natural number. -/
def pyInt (q : Rat) : Nat := q.floor.toNat

/-- `random.randint(a, b)` (inclusive bounds): oracle value reduced into
`[a, b]`. -/
def randInt (a b : Nat) (i : Nat) : Nat := a + i % (b - a + 1)

/-! ### Sample table and column profiling (`_analyze_columns`) -/

/-- The pandas dtype of a sample column, as tested by
`pd.api.types.is_numeric_dtype` / `is_datetime64_any_dtype`. -/
inductive Dtype where
  | numeric
  | datetime
  | object
  deriving DecidableEq, Repr

/-- One column of the sample DataFrame handed to the constructor. -/
structure SampleCol where
  name : String
  dtype : Dtype
  values : List Value
  deriving DecidableEq, Repr

/-- The sample DataFrame, column-oriented. -/
abbrev SampleTable := List SampleCol

/-- Numeric payloads of a list of cells (a numeric-dtype column holds
exactly its `num` cells). -/
def numsOf (vs : List Value) : List Rat :=
  vs.filterMap (fun v => match v with | .num x => some x | _ => none)

/-- Timestamp payloads of a list of cells. -/
def dtsOf (vs : List Value) : List Rat :=
  vs.filterMap (fun v => match v with | .dt x => some x | _ => none)

/-- `Series.min()` on a nonempty list. -/
def listMin : List Rat → Rat
  | [] => 0
  | x :: xs => xs.foldl min x

/-- `Series.max()` on a nonempty list. -/
def listMax : List Rat → Rat
  | [] => 0
  | x :: xs => xs.foldl max x

/-- Helper for `Series.unique()`: keep the first occurrence of each value. -/
def uniqAux {α : Type} [DecidableEq α] (seen : List α) : List α → List α
  | [] => []
  | v :: vs => if v ∈ seen then uniqAux seen vs else v :: uniqAux (v :: seen) vs

/-- `Series.unique()` / first-occurrence deduplication. -/
def uniqueList {α : Type} [DecidableEq α] (l : List α) : List α := uniqAux [] l

/-- The per-column profile stored in `self.column_types`: the `'type'` tag
together with the fields the code stores for that tag. -/
inductive ColInfo where
  | mixed
  | numeric (mn mx : Rat) (samples : List Rat)
  | datetime (mn mx : Rat) (samples : List Rat)
  | categorical (samples uniqueValues : List Value)
  | text (samples uniqueValues : List Value)
  deriving DecidableEq, Repr

/-- The `'samples'` entry of a profile, as a list of cell values. -/
def ColInfo.samples : ColInfo → List Value
  | .mixed => []
  | .numeric _ _ s => s.map Value.num
  | .datetime _ _ s => s.map Value.dt
  | .categorical s _ => s
  | .text s _ => s

/-- `info['type'] in ['text', 'categorical']`. -/
def ColInfo.isTextOrCat : ColInfo → Bool
  | .categorical _ _ => true
  | .text _ _ => true
  | _ => false

/-- `info['type'] == 'numeric'`. -/
def ColInfo.isNumeric : ColInfo → Bool
  | .numeric _ _ _ => true
  | _ => false

/-- `info['type'] == 'datetime'`. -/
def ColInfo.isDatetime : ColInfo → Bool
  | .datetime _ _ _ => true
  | _ => false

/-- `_analyze_columns`, for one column: drop nulls, then classify by dtype,
and for object dtype by the distinct/total ratio against 0.8. -/
def analyzeColumn (c : SampleCol) : ColInfo :=
  let colData := c.values.filter (fun v => !v.isNull)
  if colData.length = 0 then .mixed
  else if c.dtype = .numeric then
    .numeric (listMin (numsOf colData)) (listMax (numsOf colData)) (numsOf colData)
  else if c.dtype = .datetime then
    .datetime (listMin (dtsOf colData)) (listMax (dtsOf colData)) (dtsOf colData)
  else
    let uniqueVals := uniqueList colData
    if (uniqueVals.length : Rat) < (colData.length : Rat) * 0.8 then
      .categorical colData uniqueVals
    else
      .text colData uniqueVals

/-- `_analyze_columns`: profile every column of the sample once. -/
def analyzeColumns (s : SampleTable) : List (String × ColInfo) :=
  s.map (fun c => (c.name, analyzeColumn c))

/-! ### Value synthesis (`_generate_similar_value`, `_generate_text_variation`) -/

/-- All random draws one call of `_generate_similar_value` may consume. -/
structure CellChoices where
  branch : Bool        -- outcome of the `random.random() < p` test
  sIdx : Nat           -- `random.choice` over samples / unique values
  frac : Rat           -- `random.random()` factor inside `random.uniform`
  vIdx : Nat           -- `random.choice(variations)`
  vInt : Nat           -- `random.randint(1, 999)`
  vSufIdx : Nat        -- `random.choice([' Jr', ...])`
  vChar : Nat → Nat    -- `random.choices(alphabet, k=n)`

/-- `string.ascii_letters`. -/
def asciiLetters : List Char :=
  "abcdefghijklmnopqrstuvwxyzABCDEFGHIJKLMNOPQRSTUVWXYZ".toList

/-- `string.ascii_letters + string.digits`. -/
def asciiLettersDigits : List Char :=
  asciiLetters ++ "0123456789".toList

/-- `''.join(random.choices(pool, k=k))`. -/
def randomChars (pool : List Char) (pickChar : Nat → Nat) (k : Nat) : String :=
  String.mk ((List.range k).map (fun j => pick pool 'a' (pickChar j)))

/-- `random.uniform(a, b)` = `a + (b - a) * random.random()`. -/
def pyUniform (a b frac : Rat) : Rat := a + (b - a) * frac

/-- `_generate_text_variation`. -/
def generateTextVariation (originalText : Value) (o : CellChoices) : Value :=
  match originalText with
  | .str s =>
    if s.length = 0 then .str s
    else
      let variations : List String :=
        [ s ++ toString (randInt 1 999 o.vInt),
          s.replace " " "_",
          s ++ pick [" Jr", " Sr", " II", " Inc", " LLC"] " Jr" o.vSufIdx,
          randomChars asciiLetters o.vChar s.length ]
      .str (pick variations s o.vIdx)
  | v => v

/-- `_generate_similar_value`. -/
def generateSimilarValue (info : ColInfo) (o : CellChoices) : Value :=
  if info.samples.length = 0 then .null
  else
    match info with
    | .numeric mn mx samples =>
        if o.branch then .num (pick samples 0 o.sIdx)
        else .num (pyUniform mn mx o.frac)
    | .datetime mn mx samples =>
        if o.branch then .dt (pick samples 0 o.sIdx)
        else .dt (pyUniform mn mx o.frac)
    | .categorical _ uniqueValues =>
        pick uniqueValues .null o.sIdx
    | .text samples _ =>
        let sampleText := pick samples .null o.sIdx
        if o.branch then sampleText
        else generateTextVariation sampleText o
    | .mixed => pick info.samples .null o.sIdx

/-! ### Expansion (`_expand_data`) -/

/-- Value of key `c` in a record (`record[col]`), null when absent. -/
def lookupD (r : List (String × Value)) (c : String) : Value :=
  ((r.find? (fun p => p.1 = c)).map Prod.snd).getD .null

/-- `pd.DataFrame(records)`: columns are the distinct record keys in order
of first appearance (so an empty record list yields a table with zero
columns), rows take each column's value from the record. -/
def dataFrameOfRecords (records : List (List (String × Value))) : Table :=
  let cols := uniqueList (records.flatMap (fun r => r.map Prod.fst))
  ⟨cols, records.map (fun r => cols.map (fun c => lookupD r c))⟩

/-- `_expand_data`: build `targetRows` records, one synthesized value per
profiled column, then assemble the DataFrame. -/
def expandData (profiles : List (String × ColInfo)) (targetRows : Nat)
    (o : Nat → String → CellChoices) : Table :=
  dataFrameOfRecords
    ((List.range targetRows).map (fun i =>
      profiles.map (fun p => (p.1, generateSimilarValue p.2 (o i p.1)))))

/-! ### Cell addressing on working tables -/

/-- Index of a column name in the column list. -/
def colIndexOf (cols : List String) (c : String) : Option Nat :=
  match cols with
  | [] => none
  | x :: xs => if x = c then some 0 else (colIndexOf xs c).map (· + 1)

/-- `df.at[r, c] = v` (the passes only ever address existing columns). -/
def setCell (t : Table) (r : Nat) (c : String) (v : Value) : Table :=
  match colIndexOf t.cols c with
  | none => t
  | some j => ⟨t.cols, t.rows.set r ((t.rows.getD r []).set j v)⟩

/-- Read `df.at[r, c]`. -/
def getCell (t : Table) (r : Nat) (c : String) : Value :=
  match colIndexOf t.cols c with
  | none => .null
  | some j => (t.rows.getD r []).getD j .null

/-! ### Corruption pass 1: `_add_smart_duplicates` -/

/-- Random draws for one duplicate. -/
structure DupChoices where
  idx : Nat       -- `np.random.choice(df.index)`
  nearDup : Bool  -- `random.random() < 0.3`
  colIdx : Nat    -- `random.choice(text_cols)`
  modIdx : Nat    -- `random.choice(modifications)`

/-- Text/categorical column names, in profile order. -/
def textCols (profiles : List (String × ColInfo)) : List String :=
  (profiles.filter (fun p => p.2.isTextOrCat)).map Prod.fst

/-- The four near-duplicate transforms, as functions of the original
string: trailing space, uppercase, lowercase, strip spaces. -/
def dupMods : List (String → String) :=
  [fun s => s ++ " ", String.toUpper, String.toLower, fun s => s.replace " " ""]

/-- Body of the duplication loop: copy the drawn row and possibly mutate
one text/categorical column of the copy. -/
def makeDuplicate (profiles : List (String × ColInfo)) (df : Table)
    (c : DupChoices) : List Value :=
  let dup := df.rows.getD (c.idx % df.rows.length) []
  if c.nearDup then
    let tcols := textCols profiles
    if tcols = [] then dup
    else
      let colToModify := pick tcols "" c.colIdx
      match colIndexOf df.cols colToModify with
      | none => dup
      | some j =>
        match dup.getD j Value.null with
        | .str s =>
            dup.set j (.str (pick [s ++ " ", s.toUpper, s.toLower, s.replace " " ""] s c.modIdx))
        | _ => dup
  else dup

/-- `_add_smart_duplicates`: append `int(len(df) * rate)` (possibly
near-duplicate) copies of randomly drawn rows. -/
def addSmartDuplicates (profiles : List (String × ColInfo)) (df : Table)
    (rate : Rat) (o : Nat → DupChoices) : Table :=
  let numDuplicates := pyInt ((df.rows.length : Rat) * rate)
  ⟨df.cols, df.rows ++ (List.range numDuplicates).map (fun t => makeDuplicate profiles df (o t))⟩

/-! ### Corruption pass 2: `_add_strategic_nulls` -/

/-- Random draws for one null injection. -/
structure NullChoices where
  rowIdx : Nat  -- `random.randint(0, len(df) - 1)`
  colIdx : Nat  -- `random.choice(null_prone_cols)`

/-- The weighted column pool: text/categorical columns three times,
every other column once. -/
def nullProneCols (profiles : List (String × ColInfo)) : List String :=
  profiles.flatMap (fun p => if p.2.isTextOrCat then [p.1, p.1, p.1] else [p.1])

/-- One iteration of the null-injection loop. -/
def nullStep (profiles : List (String × ColInfo)) (n : Nat) (o : Nat → NullChoices)
    (acc : Table) (t : Nat) : Table :=
  setCell acc ((o t).rowIdx % n) (pick (nullProneCols profiles) "" (o t).colIdx) Value.null

/-- `_add_strategic_nulls`: `int(total_cells * rate)` draws of a random row
and a pool-weighted column, each set to null. -/
def addStrategicNulls (profiles : List (String × ColInfo)) (df : Table)
    (rate : Rat) (o : Nat → NullChoices) : Table :=
  let totalCells := df.rows.length * df.cols.length
  let numNulls := pyInt ((totalCells : Rat) * rate)
  (List.range numNulls).foldl (nullStep profiles df.rows.length o) df

/-! ### Corruption pass 3: `_add_wrong_ranges` -/

/-- Random draws for one range violation. -/
structure RangeChoices where
  rowIdx : Nat  -- `random.randint(0, len(df) - 1)`
  colIdx : Nat  -- `random.choice(numeric_cols)`
  valIdx : Nat  -- `random.choice(wrong_values)`

/-- Numeric columns with their profiles (the dict lookup
`self.column_types[col]` always lands on the drawn column's own profile). -/
def numericPairs (profiles : List (String × ColInfo)) : List (String × ColInfo) :=
  profiles.filter (fun p => p.2.isNumeric)

/-- The five out-of-range candidates built from a numeric profile. -/
def wrongValues (mn mx : Rat) : List Rat :=
  [mn - |mx - mn|, mx + |mx - mn|, -999999, 999999, if mn > 0 then 0 else -1]

/-- One iteration of the range-violation loop. -/
def rangeStep (profiles : List (String × ColInfo)) (n : Nat) (o : Nat → RangeChoices)
    (acc : Table) (t : Nat) : Table :=
  if numericPairs profiles = [] then acc
  else
    match pick (numericPairs profiles) ("", .mixed) (o t).colIdx with
    | (col, .numeric mn mx _) =>
        setCell acc ((o t).rowIdx % n) col (.num (pick (wrongValues mn mx) 0 (o t).valIdx))
    | _ => acc

/-- `_add_wrong_ranges`: `int(len(df) * rate)` draws, each overwriting a
random cell of a random numeric column with an out-of-range candidate. -/
def addWrongRanges (profiles : List (String × ColInfo)) (df : Table)
    (rate : Rat) (o : Nat → RangeChoices) : Table :=
  let numWrong := pyInt ((df.rows.length : Rat) * rate)
  (List.range numWrong).foldl (rangeStep profiles df.rows.length o) df

/-! ### Corruption pass 4: `_add_wrong_timestamps` -/

/-- Random draws for one timestamp violation. -/
structure TsChoices where
  rowIdx : Nat
  colIdx : Nat
  valIdx : Nat

/-- Datetime column names. -/
def datetimeCols (profiles : List (String × ColInfo)) : List String :=
  (profiles.filter (fun p => p.2.isDatetime)).map Prod.fst

/-- The four wrong dates: 1900-01-01, 2100-01-01, `pd.NaT`, 1970-01-01
(as epoch seconds). -/
def wrongDates : List Value :=
  [.dt (-2208988800), .dt 4102444800, .naT, .dt 0]

/-- One iteration of the timestamp-violation loop. -/
def tsStep (profiles : List (String × ColInfo)) (n : Nat) (o : Nat → TsChoices)
    (acc : Table) (t : Nat) : Table :=
  setCell acc ((o t).rowIdx % n) (pick (datetimeCols profiles) "" (o t).colIdx)
    (pick wrongDates .naT (o t).valIdx)

/-- `_add_wrong_timestamps`: early return when no datetime column exists,
otherwise `int(len(df) * rate)` overwrites with wrong dates. -/
def addWrongTimestamps (profiles : List (String × ColInfo)) (df : Table)
    (rate : Rat) (o : Nat → TsChoices) : Table :=
  let numWrong := pyInt ((df.rows.length : Rat) * rate)
  if datetimeCols profiles = [] then df
  else (List.range numWrong).foldl (tsStep profiles df.rows.length o) df

/-! ### Corruption pass 5: `_add_text_corruption` -/

/-- Random draws for one text corruption. -/
structure TextChoices where
  rowIdx : Nat
  colIdx : Nat
  corrIdx : Nat
  chars : Nat → Nat  -- `random.choices(letters + digits, k=n)`

/-- The eight corruption candidates built from a nonempty string. -/
def textCorruptions (s : String) (o : TextChoices) : List String :=
  [ s.toUpper,
    s.toLower,
    s ++ "???",
    if s.length > 0 then s.replace (String.mk [s.toList.headD 'X']) "X" else s,
    String.mk s.toList.reverse,
    s ++ s,
    "",
    randomChars asciiLettersDigits o.chars s.length ]

/-- One iteration of the text-corruption loop (reads the current, possibly
already corrupted, cell value). -/
def textStep (profiles : List (String × ColInfo)) (n : Nat) (o : Nat → TextChoices)
    (acc : Table) (t : Nat) : Table :=
  match getCell acc ((o t).rowIdx % n) (pick (textCols profiles) "" (o t).colIdx) with
  | .str s =>
      if s.length > 0 then
        setCell acc ((o t).rowIdx % n) (pick (textCols profiles) "" (o t).colIdx)
          (.str (pick (textCorruptions s (o t)) s (o t).corrIdx))
      else acc
  | _ => acc

/-- `_add_text_corruption`: early return when no text/categorical column
exists, otherwise `int(len(df) * rate)` corruption draws. -/
def addTextCorruption (profiles : List (String × ColInfo)) (df : Table)
    (rate : Rat) (o : Nat → TextChoices) : Table :=
  let numCorrupt := pyInt ((df.rows.length : Rat) * rate)
  if textCols profiles = [] then df
  else (List.range numCorrupt).foldl (textStep profiles df.rows.length o) df

/-! ### Pipeline (`_introduce_messiness`, shuffle, `generate_messy_data`) -/

/-- The five rate parameters. -/
structure Rates where
  duplicateRate : Rat
  nullRate : Rat
  wrongRangeRate : Rat
  wrongTimestampRate : Rat
  textCorruptionRate : Rat

/-- Oracles for the five corruption passes. -/
structure MessOracle where
  dup : Nat → DupChoices
  nulls : Nat → NullChoices
  ranges : Nat → RangeChoices
  ts : Nat → TsChoices
  text : Nat → TextChoices

/-- `_introduce_messiness`: the five passes in their fixed order. -/
def introduceMessiness (profiles : List (String × ColInfo)) (df : Table)
    (rates : Rates) (o : MessOracle) : Table :=
  addTextCorruption profiles
    (addWrongTimestamps profiles
      (addWrongRanges profiles
        (addStrategicNulls profiles
          (addSmartDuplicates profiles df rates.duplicateRate o.dup)
          rates.nullRate o.nulls)
        rates.wrongRangeRate o.ranges)
      rates.wrongTimestampRate o.ts)
    rates.textCorruptionRate o.text

/-- `df.sample(frac=1).reset_index(drop=True)`: reorder the rows by the
drawn permutation (valid runs have `perm` a permutation of the row
indices). -/
def shuffleRows (perm : List Nat) (df : Table) : Table :=
  ⟨df.cols, perm.map (fun i => df.rows.getD i [])⟩

/-- All randomness of one run of `generate_messy_data`. -/
structure RunOracle where
  gen : Nat → String → CellChoices
  mess : MessOracle
  perm : List Nat

/-- `generate_messy_data`: profile (done once in `__init__`), expand,
corrupt, shuffle. -/
def generateMessyData (sample : SampleTable) (targetRows : Nat)
    (rates : Rates) (o : RunOracle) : Table :=
  shuffleRows o.perm
    (introduceMessiness (analyzeColumns sample)
      (expandData (analyzeColumns sample) targetRows o.gen) rates o.mess)

/-! ### List helper lemmas -/

lemma getD_mem {α : Type} : ∀ (l : List α) (j : Nat) (d : α), j < l.length → l.getD j d ∈ l := by
  intro l
  induction l with
  | nil => intro j d h; simp at h
  | cons a l ih =>
    intro j d h
    cases j with
    | zero => simp [List.getD_cons_zero]
    | succ j =>
      rw [List.getD_cons_succ]
      exact List.mem_cons_of_mem _ (ih j d (by simpa using h))

lemma list_set_oob {α : Type} : ∀ (l : List α) (r : Nat) (x : α), l.length ≤ r → l.set r x = l := by
  intro l
  induction l with
  | nil => intro r x _; simp
  | cons a l ih =>
    intro r x h
    cases r with
    | zero => simp at h
    | succ r => rw [List.set_cons_succ, ih r x (by simpa using h)]

lemma getD_set_self {α : Type} : ∀ (l : List α) (r : Nat) (x d : α), r < l.length →
    (l.set r x).getD r d = x := by
  intro l
  induction l with
  | nil => intro r x d h; simp at h
  | cons a l ih =>
    intro r x d h
    cases r with
    | zero => simp [List.getD_cons_zero]
    | succ r => rw [List.set_cons_succ, List.getD_cons_succ]; exact ih r x d (by simpa using h)

lemma getD_set_ne {α : Type} : ∀ (l : List α) (r r' : Nat) (x d : α), r ≠ r' →
    (l.set r x).getD r' d = l.getD r' d := by
  intro l
  induction l with
  | nil => intro r r' x d _; simp
  | cons a l ih =>
    intro r r' x d h
    cases r with
    | zero =>
      cases r' with
      | zero => exact absurd rfl h
      | succ r' => simp [List.getD_cons_succ]
    | succ r =>
      cases r' with
      | zero => simp [List.set_cons_succ, List.getD_cons_zero]
      | succ r' =>
        rw [List.set_cons_succ, List.getD_cons_succ, List.getD_cons_succ]
        exact ih r r' x d (by omega)

lemma mem_set_cases {α : Type} : ∀ (l : List α) (r : Nat) (y x : α), x ∈ l.set r y →
    x = y ∨ x ∈ l := by
  intro l
  induction l with
  | nil => intro r y x h; simp at h
  | cons a l ih =>
    intro r y x h
    cases r with
    | zero =>
      rcases List.mem_cons.mp h with h | h
      · exact Or.inl h
      · exact Or.inr (List.mem_cons_of_mem _ h)
    | succ r =>
      rcases List.mem_cons.mp (by simpa [List.set_cons_succ] using h) with h | h
      · exact Or.inr (by simp [h])
      · rcases ih r y x h with h | h
        · exact Or.inl h
        · exact Or.inr (List.mem_cons_of_mem _ h)

lemma sum_map_set {α : Type} (f : α → Nat) (d : α) :
    ∀ (l : List α) (r : Nat) (x : α), r < l.length →
    ((l.set r x).map f).sum + f (l.getD r d) = (l.map f).sum + f x := by
  intro l
  induction l with
  | nil => intro r x h; simp at h
  | cons a l ih =>
    intro r x h
    cases r with
    | zero =>
      simp only [List.set_cons_zero, List.map_cons, List.sum_cons, List.getD_cons_zero]
      omega
    | succ r =>
      rw [List.set_cons_succ, List.getD_cons_succ]
      simp only [List.map_cons, List.sum_cons]
      have := ih r x (by simpa using h)
      omega

lemma pick_mem {α : Type} (l : List α) (d : α) (i : Nat) (h : l ≠ []) : pick l d i ∈ l := by
  have hl : 0 < l.length := List.length_pos.mpr h
  exact getD_mem l (i % l.length) d (Nat.mod_lt _ hl)

/-! ### `colIndexOf` lemmas -/

lemma colIndexOf_lt : ∀ (cols : List String) (c : String) (j : Nat),
    colIndexOf cols c = some j → j < cols.length := by
  intro cols
  induction cols with
  | nil => intro c j h; simp [colIndexOf] at h
  | cons x xs ih =>
    intro c j h
    by_cases hx : x = c
    · simp [colIndexOf, hx] at h
      simp [List.length_cons]
      omega
    · simp [colIndexOf, hx] at h
      rcases h with ⟨j', hj', rfl⟩
      have := ih c j' hj'
      simpa using Nat.succ_lt_succ this

lemma colIndexOf_getD : ∀ (cols : List String) (c : String) (j : Nat),
    colIndexOf cols c = some j → cols.getD j "" = c := by
  intro cols
  induction cols with
  | nil => intro c j h; simp [colIndexOf] at h
  | cons x xs ih =>
    intro c j h
    by_cases hx : x = c
    · simp [colIndexOf, hx] at h
      simp [← h, List.getD_cons_zero, hx]
    · simp [colIndexOf, hx] at h
      rcases h with ⟨j', hj', rfl⟩
      rw [List.getD_cons_succ]
      exact ih c j' hj'

lemma colIndexOf_of_mem : ∀ (cols : List String) (c : String), c ∈ cols →
    ∃ j, colIndexOf cols c = some j := by
  intro cols
  induction cols with
  | nil => intro c h; simp at h
  | cons x xs ih =>
    intro c h
    by_cases hx : x = c
    · exact ⟨0, by simp [colIndexOf, hx]⟩
    · rcases List.mem_cons.mp h with h | h
      · exact absurd h.symm hx
      · rcases ih c h with ⟨j, hj⟩
        exact ⟨j + 1, by simp [colIndexOf, hx, hj]⟩

lemma colIndexOf_inj {cols : List String} {c c' : String} {j : Nat}
    (h : colIndexOf cols c = some j) (h' : colIndexOf cols c' = some j) : c = c' := by
  have h1 := colIndexOf_getD cols c j h
  have h2 := colIndexOf_getD cols c' j h'
  rw [← h1, ← h2]

/-! ### `setCell` / `getCell` lemmas -/

lemma setCell_cols (t : Table) (r : Nat) (c : String) (v : Value) :
    (setCell t r c v).cols = t.cols := by
  unfold setCell
  cases colIndexOf t.cols c <;> rfl

lemma setCell_rows_length (t : Table) (r : Nat) (c : String) (v : Value) :
    (setCell t r c v).rows.length = t.rows.length := by
  unfold setCell
  cases colIndexOf t.cols c <;> simp

lemma setCell_wf (t : Table) (r : Nat) (c : String) (v : Value) (h : t.wf) :
    (setCell t r c v).wf := by
  unfold setCell
  cases hc : colIndexOf t.cols c with
  | none => exact h
  | some j =>
    intro row hrow
    simp only at hrow
    by_cases hr : r < t.rows.length
    · rcases mem_set_cases _ _ _ _ hrow with hrw | hrw
      · subst hrw
        rw [List.length_set]
        exact h _ (getD_mem _ _ _ hr)
      · exact h _ hrw
    · rw [list_set_oob _ _ _ (by omega)] at hrow
      exact h _ hrow

lemma setCell_of_colIndexOf_none {t : Table} {c : String} (r : Nat) (v : Value)
    (h : colIndexOf t.cols c = none) : setCell t r c v = t := by
  unfold setCell
  rw [h]

lemma setCell_of_colIndexOf_some {t : Table} {c : String} {j : Nat} (r : Nat) (v : Value)
    (h : colIndexOf t.cols c = some j) :
    setCell t r c v = ⟨t.cols, t.rows.set r ((t.rows.getD r []).set j v)⟩ := by
  unfold setCell
  rw [h]

lemma getCell_setCell_ne (t : Table) (r r' : Nat) (c c' : String) (v : Value)
    (hne : (r', c') ≠ (r, c)) : getCell (setCell t r c v) r' c' = getCell t r' c' := by
  unfold setCell getCell
  cases hc : colIndexOf t.cols c with
  | none => rfl
  | some j =>
    simp only
    cases hc' : colIndexOf t.cols c' with
    | none => rfl
    | some j' =>
      simp only
      by_cases hr : r' = r
      · subst hr
        have hcc : c' ≠ c := fun h => hne (by rw [h])
        have hjj : j' ≠ j := fun h => hcc (colIndexOf_inj (h ▸ hc') hc)
        by_cases hlen : r' < t.rows.length
        · rw [getD_set_self _ _ _ _ hlen, getD_set_ne _ _ _ _ _ (Ne.symm hjj)]
        · rw [list_set_oob _ _ _ (by omega)]
      · rw [getD_set_ne _ _ _ _ _ (fun h => hr h.symm)]

/-! ### Null-count lemmas -/

lemma rowNulls_cons (v : Value) (r : List Value) :
    rowNulls (v :: r) = (if v.isNull then 1 else 0) + rowNulls r := by
  simp only [rowNulls, List.filter_cons]
  cases h : v.isNull
  all_goals simp
  all_goals omega

lemma isNull_null : Value.null.isNull = true := rfl

lemma rowNulls_set_le : ∀ (r : List Value) (j : Nat),
    rowNulls (r.set j Value.null) ≤ rowNulls r + 1 := by
  intro r
  induction r with
  | nil => intro j; simp
  | cons a r ih =>
    intro j
    cases j with
    | zero =>
      rw [List.set_cons_zero, rowNulls_cons, rowNulls_cons, isNull_null]
      cases h : a.isNull
      all_goals simp
      all_goals omega
    | succ j =>
      rw [List.set_cons_succ, rowNulls_cons, rowNulls_cons]
      have := ih j
      cases h : a.isNull <;> simp <;> omega

lemma rowNulls_set_of_notNull : ∀ (r : List Value) (j : Nat), j < r.length →
    (r.getD j Value.null).isNull = false →
    rowNulls (r.set j Value.null) = rowNulls r + 1 := by
  intro r
  induction r with
  | nil => intro j h; simp at h
  | cons a r ih =>
    intro j hj hn
    cases j with
    | zero =>
      rw [List.getD_cons_zero] at hn
      rw [List.set_cons_zero, rowNulls_cons, rowNulls_cons, hn, isNull_null]
      simp
      omega
    | succ j =>
      rw [List.getD_cons_succ] at hn
      rw [List.set_cons_succ, rowNulls_cons, rowNulls_cons, ih j (by simpa using hj) hn]
      omega

lemma nullCount_setCell_null_le (t : Table) (r : Nat) (c : String) :
    (setCell t r c Value.null).nullCount ≤ t.nullCount + 1 := by
  cases hc : colIndexOf t.cols c with
  | none => rw [setCell_of_colIndexOf_none r _ hc]; omega
  | some j =>
    rw [setCell_of_colIndexOf_some r _ hc]
    simp only [Table.nullCount]
    by_cases hr : r < t.rows.length
    · have hs := sum_map_set rowNulls [] t.rows r ((t.rows.getD r []).set j Value.null) hr
      have hle := rowNulls_set_le (t.rows.getD r []) j
      omega
    · rw [list_set_oob _ _ _ (by omega)]
      omega

lemma nullCount_setCell_null_eq (t : Table) (r : Nat) (c : String) (hwf : t.wf)
    (hr : r < t.rows.length) (hc : c ∈ t.cols)
    (hnn : (getCell t r c).isNull = false) :
    (setCell t r c Value.null).nullCount = t.nullCount + 1 := by
  rcases colIndexOf_of_mem t.cols c hc with ⟨j, hj⟩
  have hjlt : j < t.cols.length := colIndexOf_lt t.cols c j hj
  have hrowlen : (t.rows.getD r []).length = t.cols.length :=
    hwf _ (getD_mem _ _ _ hr)
  have hcell : (t.rows.getD r []).getD j Value.null = getCell t r c := by
    unfold getCell
    rw [hj]
  rw [setCell_of_colIndexOf_some r _ hj]
  simp only [Table.nullCount]
  have hs := sum_map_set rowNulls [] t.rows r ((t.rows.getD r []).set j Value.null) hr
  have heq := rowNulls_set_of_notNull (t.rows.getD r []) j (by omega) (by rw [hcell]; exact hnn)
  omega

/-! ### Fold preservation lemmas -/

lemma foldl_rows_length {β : Type} (step : Table → β → Table)
    (h : ∀ t b, (step t b).rows.length = t.rows.length) :
    ∀ (l : List β) (t : Table), (l.foldl step t).rows.length = t.rows.length := by
  intro l
  induction l with
  | nil => intro t; rfl
  | cons b l ih => intro t; rw [List.foldl_cons, ih, h]

lemma foldl_cols {β : Type} (step : Table → β → Table)
    (h : ∀ t b, (step t b).cols = t.cols) :
    ∀ (l : List β) (t : Table), (l.foldl step t).cols = t.cols := by
  intro l
  induction l with
  | nil => intro t; rfl
  | cons b l ih => intro t; rw [List.foldl_cons, ih, h]

lemma foldl_wf {β : Type} (step : Table → β → Table)
    (h : ∀ t b, t.wf → (step t b).wf) :
    ∀ (l : List β) (t : Table), t.wf → (l.foldl step t).wf := by
  intro l
  induction l with
  | nil => intro t ht; exact ht
  | cons b l ih => intro t ht; rw [List.foldl_cons]; exact ih _ (h t b ht)

lemma nullStep_rows_length (profiles : List (String × ColInfo)) (n : Nat)
    (o : Nat → NullChoices) (t : Table) (b : Nat) :
    (nullStep profiles n o t b).rows.length = t.rows.length :=
  setCell_rows_length ..

lemma nullStep_cols (profiles : List (String × ColInfo)) (n : Nat)
    (o : Nat → NullChoices) (t : Table) (b : Nat) :
    (nullStep profiles n o t b).cols = t.cols :=
  setCell_cols ..

lemma rangeStep_rows_length (profiles : List (String × ColInfo)) (n : Nat)
    (o : Nat → RangeChoices) (t : Table) (b : Nat) :
    (rangeStep profiles n o t b).rows.length = t.rows.length := by
  unfold rangeStep
  split
  · rfl
  · split
    · exact setCell_rows_length ..
    · rfl

lemma rangeStep_cols (profiles : List (String × ColInfo)) (n : Nat)
    (o : Nat → RangeChoices) (t : Table) (b : Nat) :
    (rangeStep profiles n o t b).cols = t.cols := by
  unfold rangeStep
  split
  · rfl
  · split
    · exact setCell_cols ..
    · rfl

lemma tsStep_rows_length (profiles : List (String × ColInfo)) (n : Nat)
    (o : Nat → TsChoices) (t : Table) (b : Nat) :
    (tsStep profiles n o t b).rows.length = t.rows.length :=
  setCell_rows_length ..

lemma tsStep_cols (profiles : List (String × ColInfo)) (n : Nat)
    (o : Nat → TsChoices) (t : Table) (b : Nat) :
    (tsStep profiles n o t b).cols = t.cols :=
  setCell_cols ..

lemma textStep_rows_length (profiles : List (String × ColInfo)) (n : Nat)
    (o : Nat → TextChoices) (t : Table) (b : Nat) :
    (textStep profiles n o t b).rows.length = t.rows.length := by
  unfold textStep
  split
  · split
    · exact setCell_rows_length ..
    · rfl
  · rfl

lemma textStep_cols (profiles : List (String × ColInfo)) (n : Nat)
    (o : Nat → TextChoices) (t : Table) (b : Nat) :
    (textStep profiles n o t b).cols = t.cols := by
  unfold textStep
  split
  · split
    · exact setCell_cols ..
    · rfl
  · rfl

/-! ### Pass-level shape lemmas -/

lemma addSmartDuplicates_cols (profiles : List (String × ColInfo)) (df : Table)
    (rate : Rat) (o : Nat → DupChoices) :
    (addSmartDuplicates profiles df rate o).cols = df.cols := rfl

lemma addSmartDuplicates_rows_length (profiles : List (String × ColInfo)) (df : Table)
    (rate : Rat) (o : Nat → DupChoices) :
    (addSmartDuplicates profiles df rate o).rows.length =
      df.rows.length + pyInt ((df.rows.length : Rat) * rate) := by
  simp [addSmartDuplicates]

lemma addStrategicNulls_rows_length (profiles : List (String × ColInfo)) (df : Table)
    (rate : Rat) (o : Nat → NullChoices) :
    (addStrategicNulls profiles df rate o).rows.length = df.rows.length :=
  foldl_rows_length _ (nullStep_rows_length profiles df.rows.length o) _ _

lemma addStrategicNulls_cols (profiles : List (String × ColInfo)) (df : Table)
    (rate : Rat) (o : Nat → NullChoices) :
    (addStrategicNulls profiles df rate o).cols = df.cols :=
  foldl_cols _ (nullStep_cols profiles df.rows.length o) _ _

lemma addWrongRanges_rows_length (profiles : List (String × ColInfo)) (df : Table)
    (rate : Rat) (o : Nat → RangeChoices) :
    (addWrongRanges profiles df rate o).rows.length = df.rows.length :=
  foldl_rows_length _ (rangeStep_rows_length profiles df.rows.length o) _ _

lemma addWrongRanges_cols (profiles : List (String × ColInfo)) (df : Table)
    (rate : Rat) (o : Nat → RangeChoices) :
    (addWrongRanges profiles df rate o).cols = df.cols :=
  foldl_cols _ (rangeStep_cols profiles df.rows.length o) _ _

lemma addWrongTimestamps_rows_length (profiles : List (String × ColInfo)) (df : Table)
    (rate : Rat) (o : Nat → TsChoices) :
    (addWrongTimestamps profiles df rate o).rows.length = df.rows.length := by
  unfold addWrongTimestamps
  split
  · rfl
  · exact foldl_rows_length _ (tsStep_rows_length profiles df.rows.length o) _ _

lemma addWrongTimestamps_cols (profiles : List (String × ColInfo)) (df : Table)
    (rate : Rat) (o : Nat → TsChoices) :
    (addWrongTimestamps profiles df rate o).cols = df.cols := by
  unfold addWrongTimestamps
  split
  · rfl
  · exact foldl_cols _ (tsStep_cols profiles df.rows.length o) _ _

lemma addTextCorruption_rows_length (profiles : List (String × ColInfo)) (df : Table)
    (rate : Rat) (o : Nat → TextChoices) :
    (addTextCorruption profiles df rate o).rows.length = df.rows.length := by
  unfold addTextCorruption
  split
  · rfl
  · exact foldl_rows_length _ (textStep_rows_length profiles df.rows.length o) _ _

lemma addTextCorruption_cols (profiles : List (String × ColInfo)) (df : Table)
    (rate : Rat) (o : Nat → TextChoices) :
    (addTextCorruption profiles df rate o).cols = df.cols := by
  unfold addTextCorruption
  split
  · rfl
  · exact foldl_cols _ (textStep_cols profiles df.rows.length o) _ _

lemma shuffleRows_cols (perm : List Nat) (df : Table) :
    (shuffleRows perm df).cols = df.cols := rfl

lemma shuffleRows_rows_length (perm : List Nat) (df : Table)
    (h : perm.Perm (List.range df.rows.length)) :
    (shuffleRows perm df).rows.length = df.rows.length := by
  simp [shuffleRows, h.length_eq]

/-! ### `uniqueList` and expansion-shape lemmas -/

lemma uniqAux_nil_of_subset {α : Type} [DecidableEq α] :
    ∀ (l seen : List α), (∀ x ∈ l, x ∈ seen) → uniqAux seen l = [] := by
  intro l
  induction l with
  | nil => intro seen _; rfl
  | cons a l ih =>
    intro seen h
    rw [uniqAux, if_pos (h a (List.mem_cons_self a l))]
    exact ih seen (fun x hx => h x (List.mem_cons_of_mem _ hx))

lemma uniqAux_front {α : Type} [DecidableEq α] :
    ∀ (l₁ l₂ seen : List α), l₁.Nodup → (∀ x ∈ l₁, x ∉ seen) →
      (∀ x ∈ l₂, x ∈ seen ∨ x ∈ l₁) → uniqAux seen (l₁ ++ l₂) = l₁ := by
  intro l₁
  induction l₁ with
  | nil =>
    intro l₂ seen _ _ h₂
    exact uniqAux_nil_of_subset l₂ seen (fun x hx => by
      rcases h₂ x hx with h | h
      · exact h
      · simp at h)
  | cons a l₁ ih =>
    intro l₂ seen hnd h₁ h₂
    rw [List.cons_append, uniqAux, if_neg (h₁ a (List.mem_cons_self a l₁))]
    congr 1
    refine ih l₂ (a :: seen) (List.nodup_cons.mp hnd).2 ?_ ?_
    · intro x hx
      rw [List.mem_cons]
      push_neg
      exact ⟨fun hxa => (List.nodup_cons.mp hnd).1 (hxa ▸ hx),
             h₁ x (List.mem_cons_of_mem _ hx)⟩
    · intro x hx
      rcases h₂ x hx with h | h
      · exact Or.inl (List.mem_cons_of_mem _ h)
      · rcases List.mem_cons.mp h with h | h
        · exact Or.inl (by simp [h])
        · exact Or.inr h

lemma expandData_rows_length (profiles : List (String × ColInfo)) (n : Nat)
    (o : Nat → String → CellChoices) :
    (expandData profiles n o).rows.length = n := by
  simp [expandData, dataFrameOfRecords]

lemma expandData_cols (profiles : List (String × ColInfo)) (n : Nat)
    (o : Nat → String → CellChoices) (hn : 1 ≤ n)
    (hnd : (profiles.map Prod.fst).Nodup) :
    (expandData profiles n o).cols = profiles.map Prod.fst := by
  obtain ⟨m, rfl⟩ : ∃ m, n = m + 1 := ⟨n - 1, by omega⟩
  have hkeys : ∀ i : Nat,
      (profiles.map (fun p => (p.1, generateSimilarValue p.2 (o i p.1)))).map Prod.fst
        = profiles.map Prod.fst := by
    intro i
    rw [List.map_map]
    rfl
  show uniqueList _ = _
  rw [List.range_succ_eq_map, List.map_cons, List.flatMap_cons, hkeys 0]
  refine uniqAux_front _ _ _ hnd (by simp) ?_
  intro x hx
  right
  rw [List.mem_flatMap] at hx
  rcases hx with ⟨r, hr, hxr⟩
  rw [List.map_map, List.mem_map] at hr
  rcases hr with ⟨i, _, rfl⟩
  simpa [hkeys] using hxr

/-! ### Concrete instances used by counterexamples and witnesses -/

/-- A constant cell oracle: always the 0.7/0.8 branch, sample index 0. -/
def cellZero : CellChoices := ⟨true, 0, 0, 0, 0, 0, fun _ => 0⟩

/-- The constant expansion oracle. -/
def genZero : Nat → String → CellChoices := fun _ _ => cellZero

/-- Sample with one numeric column `id` holding `[1, 2]`. -/
def sampleC1 : SampleTable := [⟨"id", .numeric, [.num 1, .num 2]⟩]

/-! ### Claim C1 -/

/-- C1, counterexample: expanding to `target_rows = 0` builds
`pd.DataFrame([])`, which has zero columns, so the post-expansion table
does not keep the sample's column set when `target_rows = 0`. -/
theorem expand_zero_rows_drops_columns :
    (expandData (analyzeColumns sampleC1) 0 genZero).cols = [] ∧
    sampleC1.map SampleCol.name = ["id"] ∧
    (expandData (analyzeColumns sampleC1) 0 genZero).cols ≠ sampleC1.map SampleCol.name := by
  refine ⟨rfl, rfl, ?_⟩
  decide

/-- C1, amended: for every sample table with distinct column names, every
oracle and every `target_rows ≥ 1`, the post-expansion table has exactly
`target_rows` rows and exactly the sample's column set (at
`target_rows = 0` it instead has zero rows and zero columns). -/
theorem expand_rows_and_columns (s : SampleTable) (n : Nat)
    (o : Nat → String → CellChoices) (hn : 1 ≤ n)
    (hnd : (s.map SampleCol.name).Nodup) :
    (expandData (analyzeColumns s) n o).rows.length = n ∧
    (expandData (analyzeColumns s) n o).cols = s.map SampleCol.name := by
  have hmap : (analyzeColumns s).map Prod.fst = s.map SampleCol.name := by
    rw [analyzeColumns, List.map_map]
    rfl
  refine ⟨expandData_rows_length _ _ _, ?_⟩
  rw [expandData_cols _ _ _ hn (by rw [hmap]; exact hnd), hmap]

/-- Witness for C1's amended theorem at `sampleC1`, `target_rows = 2`. -/
theorem expand_rows_and_columns_witness :
    (expandData (analyzeColumns sampleC1) 2 genZero).rows.length = 2 ∧
    (expandData (analyzeColumns sampleC1) 2 genZero).cols = sampleC1.map SampleCol.name :=
  expand_rows_and_columns sampleC1 2 genZero (by decide) (by decide)

/-! ### Pipeline-level lemmas -/

lemma pyInt_eq_natFloor (q : Rat) : pyInt q = ⌊q⌋₊ := by
  rw [pyInt, ← Int.floor_toNat]
  congr 1

lemma foldl_id {α β : Type} (step : α → β → α) (h : ∀ t b, step t b = t) :
    ∀ (l : List β) (t : α), l.foldl step t = t := by
  intro l
  induction l with
  | nil => intro t; rfl
  | cons b l ih => intro t; rw [List.foldl_cons, h, ih]

lemma introduceMessiness_rows_length (P : List (String × ColInfo)) (df : Table)
    (rates : Rates) (o : MessOracle) :
    (introduceMessiness P df rates o).rows.length =
      df.rows.length + pyInt ((df.rows.length : Rat) * rates.duplicateRate) := by
  unfold introduceMessiness
  rw [addTextCorruption_rows_length, addWrongTimestamps_rows_length,
    addWrongRanges_rows_length, addStrategicNulls_rows_length,
    addSmartDuplicates_rows_length]

lemma introduceMessiness_cols (P : List (String × ColInfo)) (df : Table)
    (rates : Rates) (o : MessOracle) :
    (introduceMessiness P df rates o).cols = df.cols := by
  unfold introduceMessiness
  rw [addTextCorruption_cols, addWrongTimestamps_cols, addWrongRanges_cols,
    addStrategicNulls_cols, addSmartDuplicates_cols]

/-! ### Claim C7 -/

/-- C7: the pipeline computes the profile map once from the sample and
threads that single value through expansion and all corruption passes
(first conjunct, definitional in the embedding, mirroring that the code
derives `self.column_types` once in `__init__` and the passes operate on
working copies); every corruption pass and the shuffle preserve the column
set; and no corruption pass decreases the row count. -/
theorem pipeline_invariants (sample : SampleTable) (n : Nat) (rates : Rates) (o : RunOracle) :
    (generateMessyData sample n rates o =
      shuffleRows o.perm
        (introduceMessiness (analyzeColumns sample)
          (expandData (analyzeColumns sample) n o.gen) rates o.mess)) ∧
    (∀ (P : List (String × ColInfo)) (df : Table) (r : Rat) (o' : Nat → DupChoices),
      (addSmartDuplicates P df r o').cols = df.cols ∧
      df.rows.length ≤ (addSmartDuplicates P df r o').rows.length) ∧
    (∀ (P : List (String × ColInfo)) (df : Table) (r : Rat) (o' : Nat → NullChoices),
      (addStrategicNulls P df r o').cols = df.cols ∧
      df.rows.length ≤ (addStrategicNulls P df r o').rows.length) ∧
    (∀ (P : List (String × ColInfo)) (df : Table) (r : Rat) (o' : Nat → RangeChoices),
      (addWrongRanges P df r o').cols = df.cols ∧
      df.rows.length ≤ (addWrongRanges P df r o').rows.length) ∧
    (∀ (P : List (String × ColInfo)) (df : Table) (r : Rat) (o' : Nat → TsChoices),
      (addWrongTimestamps P df r o').cols = df.cols ∧
      df.rows.length ≤ (addWrongTimestamps P df r o').rows.length) ∧
    (∀ (P : List (String × ColInfo)) (df : Table) (r : Rat) (o' : Nat → TextChoices),
      (addTextCorruption P df r o').cols = df.cols ∧
      df.rows.length ≤ (addTextCorruption P df r o').rows.length) ∧
    (∀ (perm : List Nat) (df : Table), (shuffleRows perm df).cols = df.cols) := by
  refine ⟨rfl, ?_, ?_, ?_, ?_, ?_, ?_⟩
  · intro P df r o'
    exact ⟨addSmartDuplicates_cols .., by rw [addSmartDuplicates_rows_length]; omega⟩
  · intro P df r o'
    exact ⟨addStrategicNulls_cols .., by rw [addStrategicNulls_rows_length]⟩
  · intro P df r o'
    exact ⟨addWrongRanges_cols .., by rw [addWrongRanges_rows_length]⟩
  · intro P df r o'
    exact ⟨addWrongTimestamps_cols .., by rw [addWrongTimestamps_rows_length]⟩
  · intro P df r o'
    exact ⟨addTextCorruption_cols .., by rw [addTextCorruption_rows_length]⟩
  · intro perm df
    exact shuffleRows_cols perm df

/-! ### Claim C8 -/

/-- C8: with no numeric column the range-violation pass returns its input
unchanged; with no datetime column the timestamp pass does; with no
text/categorical column the text-corruption pass does. -/
theorem absent_kind_passes_noop (P : List (String × ColInfo)) (df : Table) (r : Rat)
    (o₃ : Nat → RangeChoices) (o₄ : Nat → TsChoices) (o₅ : Nat → TextChoices) :
    (numericPairs P = [] → addWrongRanges P df r o₃ = df) ∧
    (datetimeCols P = [] → addWrongTimestamps P df r o₄ = df) ∧
    (textCols P = [] → addTextCorruption P df r o₅ = df) := by
  refine ⟨?_, ?_, ?_⟩
  · intro h
    unfold addWrongRanges
    exact foldl_id _ (fun t b => by unfold rangeStep; rw [if_pos h]) _ _
  · intro h
    unfold addWrongTimestamps
    rw [if_pos h]
  · intro h
    unfold addTextCorruption
    rw [if_pos h]

/-- Profile set with only a text column (no numeric, no datetime column). -/
def pTextOnly : List (String × ColInfo) := [("name", .text [.str "a"] [.str "a"])]

/-- Profile set with only a numeric column (no text/categorical column). -/
def pNumOnly : List (String × ColInfo) := [("id", .numeric 1 2 [1, 2])]

/-- A one-row, one-column working table. -/
def dfOneCell : Table := ⟨["name"], [[.str "a"]]⟩

/-- Zero oracles for the corruption passes. -/
def rangeZero : Nat → RangeChoices := fun _ => ⟨0, 0, 0⟩

def tsZero : Nat → TsChoices := fun _ => ⟨0, 0, 0⟩

def textZero : Nat → TextChoices := fun _ => ⟨0, 0, 0, fun _ => 0⟩

def nullZero : Nat → NullChoices := fun _ => ⟨0, 0⟩

def dupZero : Nat → DupChoices := fun _ => ⟨0, false, 0, 0⟩

/-- Witness for C8 at concrete profile sets lacking the relevant kinds. -/
theorem absent_kind_passes_noop_witness :
    addWrongRanges pTextOnly dfOneCell 1 rangeZero = dfOneCell ∧
    addWrongTimestamps pTextOnly dfOneCell 1 tsZero = dfOneCell ∧
    addTextCorruption pNumOnly dfOneCell 1 textZero = dfOneCell :=
  ⟨(absent_kind_passes_noop pTextOnly dfOneCell 1 rangeZero tsZero textZero).1 (by decide),
   (absent_kind_passes_noop pTextOnly dfOneCell 1 rangeZero tsZero textZero).2.1 (by decide),
   (absent_kind_passes_noop pNumOnly dfOneCell 1 rangeZero tsZero textZero).2.2 (by decide)⟩

/-! ### Claim C10 -/

/-- C10: the null, range, timestamp and text passes and the shuffle keep
the row count of their input; only duplication changes it, so a full run
outputs exactly `target_rows + floor(target_rows * duplicate_rate)` rows. -/
theorem final_row_count (sample : SampleTable) (n : Nat) (rates : Rates) (o : RunOracle)
    (hperm : o.perm.Perm (List.range (n + pyInt ((n : Rat) * rates.duplicateRate)))) :
    (∀ (P : List (String × ColInfo)) (df : Table) (r : Rat) (o' : Nat → NullChoices),
      (addStrategicNulls P df r o').rows.length = df.rows.length) ∧
    (∀ (P : List (String × ColInfo)) (df : Table) (r : Rat) (o' : Nat → RangeChoices),
      (addWrongRanges P df r o').rows.length = df.rows.length) ∧
    (∀ (P : List (String × ColInfo)) (df : Table) (r : Rat) (o' : Nat → TsChoices),
      (addWrongTimestamps P df r o').rows.length = df.rows.length) ∧
    (∀ (P : List (String × ColInfo)) (df : Table) (r : Rat) (o' : Nat → TextChoices),
      (addTextCorruption P df r o').rows.length = df.rows.length) ∧
    (generateMessyData sample n rates o).rows.length =
      n + pyInt ((n : Rat) * rates.duplicateRate) := by
  refine ⟨fun P df r o' => addStrategicNulls_rows_length ..,
    fun P df r o' => addWrongRanges_rows_length ..,
    fun P df r o' => addWrongTimestamps_rows_length ..,
    fun P df r o' => addTextCorruption_rows_length .., ?_⟩
  unfold generateMessyData
  rw [shuffleRows_rows_length _ _ (by
      rw [introduceMessiness_rows_length, expandData_rows_length]
      exact hperm),
    introduceMessiness_rows_length, expandData_rows_length]

/-- Rates with `duplicate_rate = 1/2` and everything else zero. -/
def ratesHalfDup : Rates := ⟨1/2, 0, 0, 0, 0⟩

/-- Constant pass oracles bundled. -/
def messZero : MessOracle := ⟨dupZero, nullZero, rangeZero, tsZero, textZero⟩

/-- A full-run oracle whose shuffle permutation is the identity on three
rows. -/
def runOracleC10 : RunOracle := ⟨genZero, messZero, [0, 1, 2]⟩

/-- Witness for C10: two expanded rows plus one duplicate gives three. -/
theorem final_row_count_witness :
    (generateMessyData sampleC1 2 ratesHalfDup runOracleC10).rows.length =
      2 + pyInt ((2 : Rat) * ratesHalfDup.duplicateRate) := by
  refine (final_row_count sampleC1 2 ratesHalfDup runOracleC10 ?_).2.2.2.2
  have h3 : 2 + pyInt (((2 : Nat) : Rat) * ratesHalfDup.duplicateRate) = 3 := by
    norm_num [pyInt_eq_natFloor, ratesHalfDup]
  rw [h3, show runOracleC10.perm = [0, 1, 2] from rfl]
  decide

/-! ### Profiler classification helper lemmas -/

lemma analyzeColumn_empty (c : SampleCol)
    (h0 : (c.values.filter (fun v => !v.isNull)).length = 0) :
    analyzeColumn c = .mixed := by
  simp [analyzeColumn, h0]

lemma analyzeColumn_numeric_dtype (c : SampleCol)
    (hne : c.values.filter (fun v => !v.isNull) ≠ []) (hdt : c.dtype = .numeric) :
    analyzeColumn c = .numeric
      (listMin (numsOf (c.values.filter (fun v => !v.isNull))))
      (listMax (numsOf (c.values.filter (fun v => !v.isNull))))
      (numsOf (c.values.filter (fun v => !v.isNull))) := by
  have h0 : ¬ (c.values.filter (fun v => !v.isNull)).length = 0 := by
    simpa [List.length_eq_zero] using hne
  simp [analyzeColumn, h0, hdt]

lemma analyzeColumn_datetime_dtype (c : SampleCol)
    (hne : c.values.filter (fun v => !v.isNull) ≠ []) (hdt : c.dtype = .datetime) :
    analyzeColumn c = .datetime
      (listMin (dtsOf (c.values.filter (fun v => !v.isNull))))
      (listMax (dtsOf (c.values.filter (fun v => !v.isNull))))
      (dtsOf (c.values.filter (fun v => !v.isNull))) := by
  have h0 : ¬ (c.values.filter (fun v => !v.isNull)).length = 0 := by
    simpa [List.length_eq_zero] using hne
  have hnum : ¬ c.dtype = .numeric := by rw [hdt]; intro h; cases h
  simp [analyzeColumn, h0, hdt, hnum]

lemma analyzeColumn_object_cat (c : SampleCol)
    (hne : c.values.filter (fun v => !v.isNull) ≠ [])
    (hnum : c.dtype ≠ .numeric) (hdtm : c.dtype ≠ .datetime)
    (hlt : ((uniqueList (c.values.filter (fun v => !v.isNull))).length : Rat) <
      ((c.values.filter (fun v => !v.isNull)).length : Rat) * 0.8) :
    analyzeColumn c = .categorical (c.values.filter (fun v => !v.isNull))
      (uniqueList (c.values.filter (fun v => !v.isNull))) := by
  have h0 : ¬ (c.values.filter (fun v => !v.isNull)).length = 0 := by
    simpa [List.length_eq_zero] using hne
  simp [analyzeColumn, h0, hnum, hdtm, hlt]

lemma analyzeColumn_object_text (c : SampleCol)
    (hne : c.values.filter (fun v => !v.isNull) ≠ [])
    (hnum : c.dtype ≠ .numeric) (hdtm : c.dtype ≠ .datetime)
    (hlt : ¬ ((uniqueList (c.values.filter (fun v => !v.isNull))).length : Rat) <
      ((c.values.filter (fun v => !v.isNull)).length : Rat) * 0.8) :
    analyzeColumn c = .text (c.values.filter (fun v => !v.isNull))
      (uniqueList (c.values.filter (fun v => !v.isNull))) := by
  have h0 : ¬ (c.values.filter (fun v => !v.isNull)).length = 0 := by
    simpa [List.length_eq_zero] using hne
  simp [analyzeColumn, h0, hnum, hdtm, hlt]

/-! ### Claim C5 -/

/-- C5: the profiler drops nulls, then classifies: no non-null values →
mixed-empty with no samples; numeric dtype → numeric with min, max and the
non-null samples; datetime dtype → datetime likewise; otherwise
categorical exactly when the distinct count is strictly below 0.8 times
the non-null count, and text otherwise (both recording the distinct
values). -/
theorem analyze_columns_classification (c : SampleCol) :
    ((c.values.filter (fun v => !v.isNull)).length = 0 →
      analyzeColumn c = .mixed ∧ (analyzeColumn c).samples = []) ∧
    (c.values.filter (fun v => !v.isNull) ≠ [] → c.dtype = .numeric →
      analyzeColumn c = .numeric
        (listMin (numsOf (c.values.filter (fun v => !v.isNull))))
        (listMax (numsOf (c.values.filter (fun v => !v.isNull))))
        (numsOf (c.values.filter (fun v => !v.isNull)))) ∧
    (c.values.filter (fun v => !v.isNull) ≠ [] → c.dtype = .datetime →
      analyzeColumn c = .datetime
        (listMin (dtsOf (c.values.filter (fun v => !v.isNull))))
        (listMax (dtsOf (c.values.filter (fun v => !v.isNull))))
        (dtsOf (c.values.filter (fun v => !v.isNull)))) ∧
    (c.values.filter (fun v => !v.isNull) ≠ [] → c.dtype ≠ .numeric → c.dtype ≠ .datetime →
      (((uniqueList (c.values.filter (fun v => !v.isNull))).length : Rat) <
          ((c.values.filter (fun v => !v.isNull)).length : Rat) * 0.8 →
        analyzeColumn c = .categorical (c.values.filter (fun v => !v.isNull))
          (uniqueList (c.values.filter (fun v => !v.isNull)))) ∧
      (¬ ((uniqueList (c.values.filter (fun v => !v.isNull))).length : Rat) <
          ((c.values.filter (fun v => !v.isNull)).length : Rat) * 0.8 →
        analyzeColumn c = .text (c.values.filter (fun v => !v.isNull))
          (uniqueList (c.values.filter (fun v => !v.isNull))))) := by
  refine ⟨?_, ?_, ?_, ?_⟩
  · intro h0
    refine ⟨analyzeColumn_empty c h0, ?_⟩
    rw [analyzeColumn_empty c h0]
    rfl
  · exact analyzeColumn_numeric_dtype c
  · exact analyzeColumn_datetime_dtype c
  · intro hne hnum hdtm
    exact ⟨analyzeColumn_object_cat c hne hnum hdtm,
      analyzeColumn_object_text c hne hnum hdtm⟩

/-- A column whose values are all null. -/
def colEmpty : SampleCol := ⟨"e", .object, [.null]⟩

/-- A numeric column. -/
def colNum : SampleCol := ⟨"id", .numeric, [.num 1, .num 2]⟩

/-- A datetime column. -/
def colDt : SampleCol := ⟨"d", .datetime, [.dt 0, .dt 1]⟩

/-- An object column with a repeated value (2 distinct of 3: ratio below
0.8, categorical). -/
def colCat : SampleCol := ⟨"c", .object, [.str "a", .str "a", .str "b"]⟩

/-- An object column with all-distinct values (ratio 1, text). -/
def colText : SampleCol := ⟨"t", .object, [.str "a", .str "b"]⟩

/-- Witness for C5 on one column of each kind. -/
theorem analyze_columns_classification_witness :
    analyzeColumn colEmpty = .mixed ∧
    analyzeColumn colNum = .numeric (listMin [1, 2]) (listMax [1, 2]) [1, 2] ∧
    analyzeColumn colDt = .datetime (listMin [0, 1]) (listMax [0, 1]) [0, 1] ∧
    analyzeColumn colCat = .categorical [.str "a", .str "a", .str "b"] [.str "a", .str "b"] ∧
    analyzeColumn colText = .text [.str "a", .str "b"] [.str "a", .str "b"] := by
  refine ⟨((analyze_columns_classification colEmpty).1 (by decide)).1,
    (analyze_columns_classification colNum).2.1 (by decide) (by decide),
    (analyze_columns_classification colDt).2.2.1 (by decide) (by decide),
    ((analyze_columns_classification colCat).2.2.2 (by decide) (by decide) (by decide)).1 ?_,
    ((analyze_columns_classification colText).2.2.2 (by decide) (by decide) (by decide)).2 ?_⟩
  · rw [show (uniqueList (colCat.values.filter (fun v => !v.isNull))).length = 2 from rfl,
      show (colCat.values.filter (fun v => !v.isNull)).length = 3 from rfl]
    norm_num
  · rw [show (uniqueList (colText.values.filter (fun v => !v.isNull))).length = 2 from rfl,
      show (colText.values.filter (fun v => !v.isNull)).length = 2 from rfl]
    norm_num

/-! ### Synthesizer helper lemmas -/

lemma randInt_le_bounds (i : Nat) : 1 ≤ randInt 1 999 i ∧ randInt 1 999 i ≤ 999 := by
  unfold randInt
  have := Nat.mod_lt i (show 0 < 999 - 1 + 1 by omega)
  omega

lemma randomChars_length (pool : List Char) (pickChar : Nat → Nat) (k : Nat) :
    (randomChars pool pickChar k).length = k := by
  show ((List.range k).map _).length = k
  simp

lemma randomChars_chars (pool : List Char) (pickChar : Nat → Nat) (k : Nat)
    (hp : pool ≠ []) : ∀ ch ∈ (randomChars pool pickChar k).toList, ch ∈ pool := by
  intro ch hch
  have hch' : ch ∈ (List.range k).map (fun j => pick pool 'a' (pickChar j)) := hch
  rcases List.mem_map.mp hch' with ⟨j, _, rfl⟩
  exact pick_mem _ _ _ hp

lemma generateTextVariation_str (s : String) (o : CellChoices) :
    generateTextVariation (.str s) o =
      if s.length = 0 then .str s
      else .str (pick [s ++ toString (randInt 1 999 o.vInt), s.replace " " "_",
        s ++ pick [" Jr", " Sr", " II", " Inc", " LLC"] " Jr" o.vSufIdx,
        randomChars asciiLetters o.vChar s.length] s o.vIdx) := rfl

lemma generateTextVariation_isStr (s : String) (o : CellChoices) :
    ∃ t, generateTextVariation (.str s) o = .str t := by
  rw [generateTextVariation_str]
  by_cases h : s.length = 0
  · exact ⟨s, by rw [if_pos h]⟩
  · exact ⟨_, by rw [if_neg h]⟩

lemma genValue_text_isStr (s uv : List Value) (o : CellChoices)
    (hstr : ∀ v ∈ s, ∃ t, v = .str t) (hs : s ≠ []) :
    ∃ t, generateSimilarValue (.text s uv) o = .str t := by
  have h0 : ¬ ((ColInfo.text s uv).samples.length = 0) := by
    simpa [ColInfo.samples, List.length_eq_zero] using hs
  rcases hstr _ (pick_mem s Value.null o.sIdx hs) with ⟨t, ht⟩
  cases hb : o.branch with
  | true => exact ⟨t, by simp [generateSimilarValue, h0, hb, ← ht]⟩
  | false =>
    rcases generateTextVariation_isStr t o with ⟨t', ht'⟩
    refine ⟨t', ?_⟩
    simp only [generateSimilarValue, if_neg h0, hb, Bool.false_eq_true, if_false]
    rw [ht, ht']

/-! ### Claim C6 -/

/-- C6: one synthesized value per profile kind — empty samples yield null;
numeric resamples on the 0.7-branch and otherwise interpolates inside
[min, max]; datetime behaves the same on epoch seconds; categorical picks
among the distinct values; text resamples verbatim on the 0.8-branch and
otherwise applies one of the four variations (random 1–999 suffix,
underscores for spaces, one of the five name suffixes, same-length random
alphabetic string); non-string or empty-string inputs bypass variation. -/
theorem generate_similar_value_spec (info : ColInfo) (o : CellChoices) :
    (info.samples = [] → generateSimilarValue info o = .null) ∧
    (∀ mn mx s, info = .numeric mn mx s → s ≠ [] →
      (o.branch = true →
        generateSimilarValue info o = .num (pick s 0 o.sIdx) ∧ pick s 0 o.sIdx ∈ s) ∧
      (o.branch = false →
        generateSimilarValue info o = .num (mn + (mx - mn) * o.frac) ∧
        (0 ≤ o.frac → o.frac ≤ 1 → mn ≤ mx →
          mn ≤ mn + (mx - mn) * o.frac ∧ mn + (mx - mn) * o.frac ≤ mx))) ∧
    (∀ mn mx s, info = .datetime mn mx s → s ≠ [] →
      (o.branch = true →
        generateSimilarValue info o = .dt (pick s 0 o.sIdx) ∧ pick s 0 o.sIdx ∈ s) ∧
      (o.branch = false →
        generateSimilarValue info o = .dt (mn + (mx - mn) * o.frac) ∧
        (0 ≤ o.frac → o.frac ≤ 1 → mn ≤ mx →
          mn ≤ mn + (mx - mn) * o.frac ∧ mn + (mx - mn) * o.frac ≤ mx))) ∧
    (∀ s uv, info = .categorical s uv → s ≠ [] → uv ≠ [] →
      generateSimilarValue info o ∈ uv) ∧
    (∀ s uv, info = .text s uv → s ≠ [] →
      (o.branch = true →
        generateSimilarValue info o = pick s .null o.sIdx ∧ pick s .null o.sIdx ∈ s) ∧
      (o.branch = false →
        generateSimilarValue info o = generateTextVariation (pick s .null o.sIdx) o)) ∧
    (∀ v : Value, (∀ t : String, v ≠ .str t) → generateTextVariation v o = v) ∧
    (generateTextVariation (.str "") o = .str "") ∧
    (∀ s : String, s.length ≠ 0 → ∃ res : String,
      generateTextVariation (.str s) o = .str res ∧
      (res = s ++ toString (randInt 1 999 o.vInt) ∨
       res = s.replace " " "_" ∨
       (∃ suf ∈ ([" Jr", " Sr", " II", " Inc", " LLC"] : List String), res = s ++ suf) ∨
       (res.length = s.length ∧ ∀ ch ∈ res.toList, ch ∈ asciiLetters)) ∧
      1 ≤ randInt 1 999 o.vInt ∧ randInt 1 999 o.vInt ≤ 999) := by
  refine ⟨?_, ?_, ?_, ?_, ?_, ?_, rfl, ?_⟩
  · intro h
    simp [generateSimilarValue, h]
  · intro mn mx s hinfo hs
    subst hinfo
    have h0 : ¬ ((ColInfo.numeric mn mx s).samples.length = 0) := by
      simpa [ColInfo.samples, List.length_eq_zero] using hs
    constructor
    · intro hb
      exact ⟨by simp [generateSimilarValue, h0, hb], pick_mem s 0 o.sIdx hs⟩
    · intro hb
      refine ⟨by simp [generateSimilarValue, h0, hb, pyUniform], ?_⟩
      intro hf0 hf1 hmn
      constructor
      · nlinarith
      · nlinarith
  · intro mn mx s hinfo hs
    subst hinfo
    have h0 : ¬ ((ColInfo.datetime mn mx s).samples.length = 0) := by
      simpa [ColInfo.samples, List.length_eq_zero] using hs
    constructor
    · intro hb
      exact ⟨by simp [generateSimilarValue, h0, hb], pick_mem s 0 o.sIdx hs⟩
    · intro hb
      refine ⟨by simp [generateSimilarValue, h0, hb, pyUniform], ?_⟩
      intro hf0 hf1 hmn
      constructor
      · nlinarith
      · nlinarith
  · intro s uv hinfo hs huv
    subst hinfo
    have h0 : ¬ ((ColInfo.categorical s uv).samples.length = 0) := by
      simpa [ColInfo.samples, List.length_eq_zero] using hs
    have : generateSimilarValue (.categorical s uv) o = pick uv .null o.sIdx := by
      simp [generateSimilarValue, h0]
    rw [this]
    exact pick_mem uv .null o.sIdx huv
  · intro s uv hinfo hs
    subst hinfo
    have h0 : ¬ ((ColInfo.text s uv).samples.length = 0) := by
      simpa [ColInfo.samples, List.length_eq_zero] using hs
    constructor
    · intro hb
      exact ⟨by simp [generateSimilarValue, h0, hb], pick_mem s .null o.sIdx hs⟩
    · intro hb
      simp [generateSimilarValue, h0, hb]
  · intro v hv
    cases v with
    | str t => exact absurd rfl (hv t)
    | null => rfl
    | num x => rfl
    | dt x => rfl
    | naT => rfl
  · intro s hlen
    refine ⟨pick [s ++ toString (randInt 1 999 o.vInt), s.replace " " "_",
        s ++ pick [" Jr", " Sr", " II", " Inc", " LLC"] " Jr" o.vSufIdx,
        randomChars asciiLetters o.vChar s.length] s o.vIdx, ?_, ?_,
      (randInt_le_bounds o.vInt).1, (randInt_le_bounds o.vInt).2⟩
    · rw [generateTextVariation_str, if_neg hlen]
    · have hv := pick_mem [s ++ toString (randInt 1 999 o.vInt), s.replace " " "_",
        s ++ pick [" Jr", " Sr", " II", " Inc", " LLC"] " Jr" o.vSufIdx,
        randomChars asciiLetters o.vChar s.length] s o.vIdx (by simp)
      simp only [List.mem_cons, List.not_mem_nil, or_false] at hv
      rcases hv with h | h | h | h
      · exact Or.inl h
      · exact Or.inr (Or.inl h)
      · exact Or.inr (Or.inr (Or.inl
          ⟨pick [" Jr", " Sr", " II", " Inc", " LLC"] " Jr" o.vSufIdx,
           pick_mem _ _ _ (by simp), h⟩))
      · refine Or.inr (Or.inr (Or.inr ⟨?_, ?_⟩))
        · rw [h, randomChars_length]
        · rw [h]
          exact randomChars_chars _ _ _ (by simp [asciiLetters])

/-- Witness for C6 applying the spec at each profile kind. -/
theorem generate_similar_value_spec_witness :
    generateSimilarValue .mixed cellZero = .null ∧
    generateSimilarValue (.numeric 1 2 [1, 2]) cellZero = .num (pick [1, 2] 0 0) ∧
    generateSimilarValue (.datetime 1 2 [1, 2]) cellZero = .dt (pick [1, 2] 0 0) ∧
    generateSimilarValue (.categorical [.str "a"] [.str "a"]) cellZero ∈
      ([.str "a"] : List Value) ∧
    generateSimilarValue (.text [.str "ab"] [.str "ab"]) cellZero = pick [.str "ab"] .null 0 ∧
    generateTextVariation (.num 7) cellZero = .num 7 ∧
    (∃ res : String, generateTextVariation (.str "ab") cellZero = .str res) := by
  obtain ⟨res, hres, _⟩ :=
    (generate_similar_value_spec (.text [.str "ab"] [.str "ab"]) cellZero).2.2.2.2.2.2.2
      "ab" (by decide)
  exact ⟨(generate_similar_value_spec .mixed cellZero).1 rfl,
    (((generate_similar_value_spec (.numeric 1 2 [1, 2]) cellZero).2.1 1 2 [1, 2] rfl
      (by decide)).1 rfl).1,
    (((generate_similar_value_spec (.datetime 1 2 [1, 2]) cellZero).2.2.1 1 2 [1, 2] rfl
      (by decide)).1 rfl).1,
    (generate_similar_value_spec (.categorical [.str "a"] [.str "a"]) cellZero).2.2.2.1
      [.str "a"] [.str "a"] rfl (by decide) (by decide),
    (((generate_similar_value_spec (.text [.str "ab"] [.str "ab"]) cellZero).2.2.2.2.1
      [.str "ab"] [.str "ab"] rfl (by decide)).1 rfl).1,
    (generate_similar_value_spec .mixed cellZero).2.2.2.2.2.1 (.num 7) (fun t h => by cases h),
    ⟨res, hres⟩⟩

/-! ### Duplication-pass helper lemmas -/

lemma getD_append_right {α : Type} :
    ∀ (l l' : List α) (t : Nat) (d : α), (l ++ l').getD (l.length + t) d = l'.getD t d := by
  intro l
  induction l with
  | nil => intro l' t d; simp
  | cons a l ih =>
    intro l' t d
    rw [List.cons_append, show (a :: l).length + t = (l.length + t) + 1 by simp; omega,
      List.getD_cons_succ]
    exact ih l' t d

lemma getD_map_range {α : Type} (f : Nat → α) (d : α) (k t : Nat) (h : t < k) :
    ((List.range k).map f).getD t d = f t := by
  have hlen : t < ((List.range k).map f).length := by simpa using h
  rw [List.getD_eq_getElem _ d hlen, List.getElem_map]
  congr 1
  exact List.getElem_range _ _

lemma pick_map {α β : Type} (l : List α) (g : α → β) (d : β) (d' : α) (i : Nat)
    (h : l ≠ []) : pick (l.map g) d i = g (pick l d' i) := by
  have hl : 0 < l.length := List.length_pos.mpr h
  have h1 : i % (l.map g).length < (l.map g).length := by
    simpa using Nat.mod_lt i (by simpa using hl)
  have h2 : i % l.length < l.length := Nat.mod_lt i hl
  rw [pick, pick, List.getD_eq_getElem _ d h1, List.getD_eq_getElem _ d' h2,
    List.getElem_map]
  simp

lemma addSmartDuplicates_rows_eq (profiles : List (String × ColInfo)) (df : Table)
    (rate : Rat) (o : Nat → DupChoices) :
    (addSmartDuplicates profiles df rate o).rows =
      df.rows ++ (List.range (pyInt ((df.rows.length : Rat) * rate))).map
        (fun t => makeDuplicate profiles df (o t)) := rfl

/-! ### Claim C2 -/

/-- The shape claim C2 asserts for a near-duplicate copy: one
text/categorical column of the original row, holding a string, rewritten
by one of the four transforms. -/
def nearDupClaim (profiles : List (String × ColInfo)) (cols : List String)
    (origRow copyRow : List Value) : Prop :=
  ∃ c ∈ textCols profiles, ∃ j, colIndexOf cols c = some j ∧
    ∃ s : String, origRow.getD j .null = .str s ∧
      ∃ m ∈ dupMods, copyRow = origRow.set j (.str (m s))

/-- A categorical column whose values are numbers, not strings. -/
def pCatNum : List (String × ColInfo) :=
  [("c", .categorical [.num 1, .num 1, .num 2] [.num 1, .num 2])]

/-- A one-row working table over that column. -/
def dfCatNum : Table := ⟨["c"], [[.num 1]]⟩

/-- A duplication oracle that always takes the 30% near-duplicate branch. -/
def dupNear : Nat → DupChoices := fun _ => ⟨0, true, 0, 0⟩

/-- C2, counterexample: with a text/categorical column present and the
near-duplicate branch drawn, the mutation is nevertheless skipped because
the chosen cell holds a non-string, so the appended copy is exact — the
claim's "skipped only when no text/categorical column exists" is false. -/
theorem duplicate_nonstring_skips_mutation :
    (addSmartDuplicates pCatNum dfCatNum 1 dupNear).rows = [[.num 1], [.num 1]] ∧
    textCols pCatNum = ["c"] ∧
    (dupNear 0).nearDup = true ∧
    ¬ nearDupClaim pCatNum dfCatNum.cols [Value.num 1]
        ((addSmartDuplicates pCatNum dfCatNum 1 dupNear).rows.getD 1 []) := by
  have hk : pyInt ((dfCatNum.rows.length : Rat) * 1) = 1 := by
    show pyInt (((1 : Nat) : Rat) * 1) = 1
    norm_num [pyInt_eq_natFloor]
  have hrows : (addSmartDuplicates pCatNum dfCatNum 1 dupNear).rows = [[.num 1], [.num 1]] := by
    rw [addSmartDuplicates_rows_eq, hk]
    decide
  refine ⟨hrows, rfl, rfl, ?_⟩
  rw [hrows]
  rintro ⟨c, hc, j, hj, s, hs, -⟩
  have hc' : c = "c" := by
    have htc : textCols pCatNum = ["c"] := rfl
    rw [htc] at hc
    simpa using hc
  subst hc'
  have hj' : j = 0 := by
    have : colIndexOf dfCatNum.cols "c" = some 0 := rfl
    rw [this] at hj
    exact (Option.some.inj hj).symm
  subst hj'
  simp at hs

/-- C2, amended: pass 1 appends exactly `k = floor(n * duplicate_rate)`
copies of drawn rows, so the row count becomes `n + k`, and that count is
preserved by passes 2–4 (hence it is the count basis of passes 3–5); each
appended copy is exact unless the 0.3 branch was drawn, a text/categorical
column exists, and the drawn column's cell holds a string, in which case
exactly that column is rewritten by one of the four transforms; when the
cell is not a string the mutation is skipped and the copy stays exact. -/
theorem smart_duplicates_spec (profiles : List (String × ColInfo)) (df : Table)
    (rate : Rat) (o : Nat → DupChoices) :
    (addSmartDuplicates profiles df rate o).rows.length
      = df.rows.length + pyInt ((df.rows.length : Rat) * rate) ∧
    (∀ (P' : List (String × ColInfo)) (df' : Table) (r' : Rat) (o' : Nat → NullChoices),
      (addStrategicNulls P' df' r' o').rows.length = df'.rows.length) ∧
    (∀ (P' : List (String × ColInfo)) (df' : Table) (r' : Rat) (o' : Nat → RangeChoices),
      (addWrongRanges P' df' r' o').rows.length = df'.rows.length) ∧
    (∀ (P' : List (String × ColInfo)) (df' : Table) (r' : Rat) (o' : Nat → TsChoices),
      (addWrongTimestamps P' df' r' o').rows.length = df'.rows.length) ∧
    (∀ t, t < pyInt ((df.rows.length : Rat) * rate) →
      (addSmartDuplicates profiles df rate o).rows.getD (df.rows.length + t) []
        = makeDuplicate profiles df (o t) ∧
      ((o t).nearDup = false →
        makeDuplicate profiles df (o t) = df.rows.getD ((o t).idx % df.rows.length) []) ∧
      (textCols profiles = [] →
        makeDuplicate profiles df (o t) = df.rows.getD ((o t).idx % df.rows.length) []) ∧
      ((o t).nearDup = true → textCols profiles ≠ [] →
        ∀ j, colIndexOf df.cols (pick (textCols profiles) "" (o t).colIdx) = some j →
          (∀ s : String,
            (df.rows.getD ((o t).idx % df.rows.length) []).getD j .null ≠ .str s) →
          makeDuplicate profiles df (o t) = df.rows.getD ((o t).idx % df.rows.length) []) ∧
      ((o t).nearDup = true → textCols profiles ≠ [] →
        ∀ j s, colIndexOf df.cols (pick (textCols profiles) "" (o t).colIdx) = some j →
          (df.rows.getD ((o t).idx % df.rows.length) []).getD j .null = .str s →
          pick (textCols profiles) "" (o t).colIdx ∈ textCols profiles ∧
          ∃ m ∈ dupMods,
            makeDuplicate profiles df (o t)
              = (df.rows.getD ((o t).idx % df.rows.length) []).set j (.str (m s)))) := by
  refine ⟨addSmartDuplicates_rows_length .., fun P' df' r' o' => addStrategicNulls_rows_length ..,
    fun P' df' r' o' => addWrongRanges_rows_length ..,
    fun P' df' r' o' => addWrongTimestamps_rows_length .., ?_⟩
  intro t ht
  refine ⟨?_, ?_, ?_, ?_, ?_⟩
  · rw [addSmartDuplicates_rows_eq, getD_append_right, getD_map_range _ _ _ _ ht]
  · intro h
    simp [makeDuplicate, h]
  · intro h
    unfold makeDuplicate
    cases (o t).nearDup <;> simp [h]
  · intro hnd htc j hj hns
    unfold makeDuplicate
    rw [hnd]
    simp only [if_true, if_neg htc, hj]
  · intro hnd htc j s hj hs
    refine ⟨pick_mem _ _ _ htc, ?_⟩
    refine ⟨pick dupMods (fun s => s ++ " ") (o t).modIdx, pick_mem _ _ _ (by simp [dupMods]), ?_⟩
    unfold makeDuplicate
    rw [hnd]
    simp only [if_true, if_neg htc, hj, hs]
    congr 1
    have hlit : [s ++ " ", s.toUpper, s.toLower, s.replace " " ""]
        = dupMods.map (fun m => m s) := rfl
    rw [hlit, pick_map dupMods (fun m => m s) s (fun s => s ++ " ") (o t).modIdx
      (by simp [dupMods])]

/-- A one-column text profile with a string cell, for the C2 witness. -/
def pTextAb : List (String × ColInfo) := [("c", .text [.str "ab"] [.str "ab"])]

/-- One-row table holding the string. -/
def dfTextAb : Table := ⟨["c"], [[.str "ab"]]⟩

/-- Witness for C2: one appended near-duplicate whose text cell is
rewritten by a transform from the four-element menu. -/
theorem smart_duplicates_spec_witness :
    (addSmartDuplicates pTextAb dfTextAb 1 dupNear).rows.length
      = dfTextAb.rows.length + pyInt ((dfTextAb.rows.length : Rat) * 1) ∧
    pick (textCols pTextAb) "" 0 ∈ textCols pTextAb ∧
    (∃ m ∈ dupMods,
      makeDuplicate pTextAb dfTextAb (dupNear 0)
        = (dfTextAb.rows.getD (0 % dfTextAb.rows.length) []).set 0 (.str (m "ab"))) := by
  have hk : pyInt ((dfTextAb.rows.length : Rat) * 1) = 1 := by
    show pyInt (((1 : Nat) : Rat) * 1) = 1
    norm_num [pyInt_eq_natFloor]
  have h := smart_duplicates_spec pTextAb dfTextAb 1 dupNear
  have h5 := (h.2.2.2.2 0 (by rw [hk]; omega)).2.2.2.2 rfl (by decide) 0 "ab" rfl rfl
  exact ⟨h.1, h5.1, h5.2⟩

/-! ### Null-injection helper lemmas -/

/-- One (row index, column name) draw of the null-injection loop. -/
def nullDraw (profiles : List (String × ColInfo)) (n : Nat) (o : Nat → NullChoices)
    (t : Nat) : Nat × String :=
  ((o t).rowIdx % n, pick (nullProneCols profiles) "" (o t).colIdx)

/-- Apply a list of (row, column) null draws in order. -/
def applyNulls (L : List (Nat × String)) (df : Table) : Table :=
  L.foldl (fun acc d => setCell acc d.1 d.2 Value.null) df

lemma addStrategicNulls_eq_applyNulls (profiles : List (String × ColInfo)) (df : Table)
    (rate : Rat) (o : Nat → NullChoices) :
    addStrategicNulls profiles df rate o =
      applyNulls ((List.range (pyInt (((df.rows.length * df.cols.length : Nat) : Rat) * rate))).map
        (nullDraw profiles df.rows.length o)) df := by
  unfold addStrategicNulls applyNulls
  rw [List.foldl_map]
  rfl

lemma applyNulls_nullCount_le :
    ∀ (L : List (Nat × String)) (df : Table),
      (applyNulls L df).nullCount ≤ df.nullCount + L.length := by
  intro L
  induction L with
  | nil => intro df; simp [applyNulls]
  | cons d L ih =>
    intro df
    have h1 := nullCount_setCell_null_le df d.1 d.2
    have h2 := ih (setCell df d.1 d.2 Value.null)
    show (applyNulls L (setCell df d.1 d.2 Value.null)).nullCount ≤ _
    simp only [List.length_cons]
    omega

lemma applyNulls_nullCount_eq :
    ∀ (L : List (Nat × String)) (df : Table), df.wf →
      (∀ d ∈ L, d.1 < df.rows.length ∧ d.2 ∈ df.cols ∧
        (getCell df d.1 d.2).isNull = false) →
      L.Pairwise (· ≠ ·) →
      (applyNulls L df).nullCount = df.nullCount + L.length := by
  intro L
  induction L with
  | nil => intro df _ _ _; simp [applyNulls]
  | cons d L ih =>
    intro df hwf hd hpw
    obtain ⟨hpw1, hpw2⟩ := List.pairwise_cons.mp hpw
    obtain ⟨hd1, hd2, hd3⟩ := hd d (List.mem_cons_self d L)
    have hset := nullCount_setCell_null_eq df d.1 d.2 hwf hd1 hd2 hd3
    have hrec := ih (setCell df d.1 d.2 Value.null) (setCell_wf df d.1 d.2 _ hwf) ?_ hpw2
    · show (applyNulls L (setCell df d.1 d.2 Value.null)).nullCount = _
      simp only [List.length_cons]
      omega
    · intro d' hd'
      obtain ⟨h1, h2, h3⟩ := hd d' (List.mem_cons_of_mem d hd')
      have hne : (d'.1, d'.2) ≠ (d.1, d.2) := by
        have := hpw1 d' hd'
        intro hcontra
        apply this
        calc d = (d.1, d.2) := rfl
        _ = (d'.1, d'.2) := hcontra.symm
        _ = d' := rfl
      refine ⟨by rw [setCell_rows_length]; exact h1, by rw [setCell_cols]; exact h2, ?_⟩
      rw [getCell_setCell_ne df d.1 d'.1 d.2 d'.2 Value.null hne]
      exact h3

lemma nullProneCols_mem : ∀ (ps : List (String × ColInfo)) (c : String),
    c ∈ nullProneCols ps → c ∈ ps.map Prod.fst := by
  intro ps c hc
  rw [nullProneCols, List.mem_flatMap] at hc
  rcases hc with ⟨p, hp, hcp⟩
  have : c = p.1 := by
    by_cases h : p.2.isTextOrCat <;> simp [h] at hcp <;> simp [hcp]
  rw [this]
  exact List.mem_map_of_mem Prod.fst hp

lemma nullProneCols_count : ∀ (ps : List (String × ColInfo)) (p : String × ColInfo),
    p ∈ ps → (ps.map Prod.fst).Nodup →
    (nullProneCols ps).count p.1 = if p.2.isTextOrCat then 3 else 1 := by
  intro ps
  induction ps with
  | nil => intro p hp; simp at hp
  | cons q ps ih =>
    intro p hp hnd
    have hblock : nullProneCols (q :: ps)
        = (if q.2.isTextOrCat then [q.1, q.1, q.1] else [q.1]) ++ nullProneCols ps := rfl
    rw [hblock, List.count_append]
    rcases List.mem_cons.mp hp with rfl | hps
    · have hzero : (nullProneCols ps).count p.1 = 0 := by
        rw [List.count_eq_zero]
        intro hmem
        exact (List.nodup_cons.mp hnd).1 (nullProneCols_mem ps p.1 hmem)
      rw [hzero]
      by_cases h : p.2.isTextOrCat <;> simp [h]
    · have hq : q.1 ≠ p.1 := by
        intro hcontra
        exact (List.nodup_cons.mp hnd).1
          (hcontra ▸ List.mem_map_of_mem Prod.fst hps)
      have hzero : (if q.2.isTextOrCat then [q.1, q.1, q.1] else [q.1]).count p.1 = 0 := by
        rw [List.count_eq_zero]
        by_cases h : q.2.isTextOrCat <;> simp [h] <;> exact fun hc => hq hc.symm
      rw [hzero, ih p hps (List.nodup_cons.mp hnd).2]
      omega

/-! ### Claim C3 -/

/-- A profile set with a single mixed-empty column. -/
def pMixedOne : List (String × ColInfo) := [("m", .mixed)]

/-- A one-cell table whose only cell is already null (as expansion
produces for a mixed-empty column). -/
def dfNullCell : Table := ⟨["m"], [[.null]]⟩

/-- C3, counterexample: `num_nulls = 1` and the single draw hits a cell
that is already null, so the number of null cells introduced is 0 < 1 even
though no (row, column) pair was drawn twice. -/
theorem nulls_equality_fails_on_prior_null :
    pyInt (((dfNullCell.rows.length * dfNullCell.cols.length : Nat) : Rat) * 1) = 1 ∧
    addStrategicNulls pMixedOne dfNullCell 1 nullZero = dfNullCell ∧
    (addStrategicNulls pMixedOne dfNullCell 1 nullZero).nullCount = dfNullCell.nullCount ∧
    dfNullCell.nullCount = 1 := by
  have hk : pyInt (((dfNullCell.rows.length * dfNullCell.cols.length : Nat) : Rat) * 1) = 1 := by
    show pyInt (((1 : Nat) : Rat) * 1) = 1
    norm_num [pyInt_eq_natFloor]
  have heq : addStrategicNulls pMixedOne dfNullCell 1 nullZero = dfNullCell := by
    rw [addStrategicNulls_eq_applyNulls, hk]
    decide
  exact ⟨hk, heq, by rw [heq], by decide⟩

/-- C3, amended: the weighted pool holds each text/categorical column 3
times and every other column once; the pass performs
`floor(rows * cols * null_rate)` null assignments, so the nulls introduced
are at most that number; and equality holds whenever no (row, column) pair
is drawn twice *and* every drawn cell was non-null beforehand (a drawn
cell that is already null — e.g. from a mixed-empty column — contributes
nothing, which is the correction to the claim). -/
theorem strategic_nulls_spec (profiles : List (String × ColInfo)) (df : Table)
    (rate : Rat) (o : Nat → NullChoices) :
    (∀ p ∈ profiles, (profiles.map Prod.fst).Nodup →
      (nullProneCols profiles).count p.1 = if p.2.isTextOrCat then 3 else 1) ∧
    (addStrategicNulls profiles df rate o).nullCount
      ≤ df.nullCount + pyInt (((df.rows.length * df.cols.length : Nat) : Rat) * rate) ∧
    (df.wf → 0 < df.rows.length →
      ((List.range (pyInt (((df.rows.length * df.cols.length : Nat) : Rat) * rate))).map
        (nullDraw profiles df.rows.length o)).Pairwise (· ≠ ·) →
      (∀ t < pyInt (((df.rows.length * df.cols.length : Nat) : Rat) * rate),
        pick (nullProneCols profiles) "" (o t).colIdx ∈ df.cols ∧
        (getCell df ((o t).rowIdx % df.rows.length)
          (pick (nullProneCols profiles) "" (o t).colIdx)).isNull = false) →
      (addStrategicNulls profiles df rate o).nullCount
        = df.nullCount + pyInt (((df.rows.length * df.cols.length : Nat) : Rat) * rate)) := by
  refine ⟨fun p hp hnd => nullProneCols_count profiles p hp hnd, ?_, ?_⟩
  · rw [addStrategicNulls_eq_applyNulls]
    have := applyNulls_nullCount_le
      ((List.range (pyInt (((df.rows.length * df.cols.length : Nat) : Rat) * rate))).map
        (nullDraw profiles df.rows.length o)) df
    simpa using this
  · intro hwf hn hpw hcells
    rw [addStrategicNulls_eq_applyNulls]
    have hlen : ((List.range (pyInt (((df.rows.length * df.cols.length : Nat) : Rat) * rate))).map
        (nullDraw profiles df.rows.length o)).length
        = pyInt (((df.rows.length * df.cols.length : Nat) : Rat) * rate) := by simp
    rw [applyNulls_nullCount_eq _ df hwf ?_ hpw, hlen]
    intro d hd
    rcases List.mem_map.mp hd with ⟨t, ht, rfl⟩
    rw [List.mem_range] at ht
    obtain ⟨h2, h3⟩ := hcells t ht
    exact ⟨Nat.mod_lt _ hn, h2, h3⟩

/-- A one-cell table whose cell is non-null, for the C3 witness. -/
def dfNumCell : Table := ⟨["m"], [[.num 1]]⟩

/-- Witness for C3: one draw on a non-null cell raises the null count by
exactly `num_nulls = 1`, and the pool weight of the mixed column is 1. -/
theorem strategic_nulls_spec_witness :
    (nullProneCols pMixedOne).count "m" = 1 ∧
    (addStrategicNulls pMixedOne dfNumCell 1 nullZero).nullCount
      = dfNumCell.nullCount + pyInt (((dfNumCell.rows.length * dfNumCell.cols.length : Nat) : Rat) * 1) := by
  have h := strategic_nulls_spec pMixedOne dfNumCell 1 nullZero
  have hk : pyInt (((dfNumCell.rows.length * dfNumCell.cols.length : Nat) : Rat) * 1) = 1 := by
    show pyInt (((1 : Nat) : Rat) * 1) = 1
    norm_num [pyInt_eq_natFloor]
  refine ⟨h.1 ("m", .mixed) (by decide) (by decide), ?_⟩
  refine h.2.2 (by show ∀ r ∈ dfNumCell.rows, r.length = dfNumCell.cols.length; decide)
    (by decide) ?_ ?_
  · rw [hk]
    decide
  · rw [hk]
    decide

/-! ### Zero-rate and scenario helper lemmas -/

lemma pyInt_mul_zero (q : Rat) : pyInt (q * 0) = 0 := by
  rw [mul_zero, pyInt_eq_natFloor]
  exact Nat.floor_zero

lemma addSmartDuplicates_zero (P : List (String × ColInfo)) (df : Table)
    (o : Nat → DupChoices) : addSmartDuplicates P df 0 o = df := by
  unfold addSmartDuplicates
  rw [pyInt_mul_zero]
  simp

lemma addStrategicNulls_zero (P : List (String × ColInfo)) (df : Table)
    (o : Nat → NullChoices) : addStrategicNulls P df 0 o = df := by
  rw [addStrategicNulls_eq_applyNulls, pyInt_mul_zero]
  rfl

lemma addWrongRanges_zero (P : List (String × ColInfo)) (df : Table)
    (o : Nat → RangeChoices) : addWrongRanges P df 0 o = df := by
  unfold addWrongRanges
  rw [pyInt_mul_zero]
  rfl

lemma addWrongTimestamps_zero (P : List (String × ColInfo)) (df : Table)
    (o : Nat → TsChoices) : addWrongTimestamps P df 0 o = df := by
  unfold addWrongTimestamps
  rw [pyInt_mul_zero]
  split <;> rfl

lemma addTextCorruption_zero (P : List (String × ColInfo)) (df : Table)
    (o : Nat → TextChoices) : addTextCorruption P df 0 o = df := by
  unfold addTextCorruption
  rw [pyInt_mul_zero]
  split <;> rfl

lemma pick_singleton {α : Type} (a d : α) (i : Nat) : pick [a] d i = a := by
  simp [pick, Nat.mod_one]

lemma generateMessyData_eq (sample : SampleTable) (targetRows : Nat)
    (rates : Rates) (o : RunOracle) :
    generateMessyData sample targetRows rates o =
      shuffleRows o.perm
        (introduceMessiness (analyzeColumns sample)
          (expandData (analyzeColumns sample) targetRows o.gen) rates o.mess) := rfl

lemma introduceMessiness_eq (P : List (String × ColInfo)) (df : Table)
    (rates : Rates) (o : MessOracle) :
    introduceMessiness P df rates o =
      addTextCorruption P
        (addWrongTimestamps P
          (addWrongRanges P
            (addStrategicNulls P
              (addSmartDuplicates P df rates.duplicateRate o.dup)
              rates.nullRate o.nulls)
            rates.wrongRangeRate o.ranges)
          rates.wrongTimestampRate o.ts)
        rates.textCorruptionRate o.text := rfl

lemma addWrongRanges_eq_foldl (P : List (String × ColInfo)) (df : Table)
    (rate : Rat) (o : Nat → RangeChoices) :
    addWrongRanges P df rate o =
      (List.range (pyInt ((df.rows.length : Rat) * rate))).foldl
        (rangeStep P df.rows.length o) df := rfl

/-- All cells of the table satisfy `P`. -/
def Table.allCells (t : Table) (P : Value → Prop) : Prop :=
  ∀ row ∈ t.rows, ∀ x ∈ row, P x

lemma allCells_setCell (t : Table) (r : Nat) (c : String) (v : Value)
    (P : Value → Prop) (h : t.allCells P) (hv : P v) :
    (setCell t r c v).allCells P := by
  cases hc : colIndexOf t.cols c with
  | none => rw [setCell_of_colIndexOf_none r v hc]; exact h
  | some j =>
    rw [setCell_of_colIndexOf_some r v hc]
    intro row hrow x hx
    simp only at hrow
    by_cases hr : r < t.rows.length
    · rcases mem_set_cases _ _ _ _ hrow with hrw | hrw
      · subst hrw
        rcases mem_set_cases _ _ _ _ hx with hxv | hxv
        · exact hxv ▸ hv
        · exact h _ (getD_mem _ _ _ hr) x hxv
      · exact h _ hrw x hx
    · rw [list_set_oob _ _ _ (by omega)] at hrow
      exact h _ hrow x hx

lemma allCells_shuffle (perm : List Nat) (df : Table) (P : Value → Prop)
    (h : df.allCells P) : (shuffleRows perm df).allCells P := by
  intro row hrow x hx
  rcases List.mem_map.mp hrow with ⟨i, _, rfl⟩
  by_cases hi : i < df.rows.length
  · exact h _ (getD_mem _ _ _ hi) x hx
  · rw [List.getD_eq_getElem?_getD, List.getElem?_eq_none (by omega)] at hx
    simp at hx

lemma allCells_foldl {β : Type} (step : Table → β → Table) (P : Value → Prop)
    (h : ∀ t b, t.allCells P → (step t b).allCells P) :
    ∀ (l : List β) (t : Table), t.allCells P → (l.foldl step t).allCells P := by
  intro l
  induction l with
  | nil => intro t ht; exact ht
  | cons b l ih => intro t ht; exact ih _ (h t b ht)

/-- All rows of the table satisfy `P`. -/
def Table.allRows (t : Table) (P : List Value → Prop) : Prop :=
  ∀ row ∈ t.rows, P row

lemma allRows_shuffle (perm : List Nat) (df : Table) (P : List Value → Prop)
    (h : df.allRows P) (hperm : perm.Perm (List.range df.rows.length)) :
    (shuffleRows perm df).allRows P := by
  intro row hrow
  rcases List.mem_map.mp hrow with ⟨i, hi, rfl⟩
  have : i < df.rows.length := by
    have := hperm.mem_iff.mp hi
    simpa using this
  exact h _ (getD_mem _ _ _ this)

lemma nullCount_eq_zero_of_allCells (t : Table)
    (h : t.allCells (fun v => v.isNull = false)) : t.nullCount = 0 := by
  unfold Table.nullCount
  rw [List.sum_eq_zero]
  intro x hx
  rcases List.mem_map.mp hx with ⟨row, hrow, rfl⟩
  unfold rowNulls
  rw [List.length_eq_zero, List.filter_eq_nil_iff]
  intro v hv
  rw [h row hrow v hv]
  simp

lemma genValue_numeric_bounds (mn mx : Rat) (s : List Rat) (o : CellChoices)
    (hs : s ≠ []) (hf0 : 0 ≤ o.frac) (hf1 : o.frac < 1) (hmn : mn ≤ mx)
    (hsb : ∀ y ∈ s, mn ≤ y ∧ y ≤ mx) :
    ∃ q, generateSimilarValue (.numeric mn mx s) o = .num q ∧ mn ≤ q ∧ q ≤ mx := by
  have h0 : ¬ ((ColInfo.numeric mn mx s).samples.length = 0) := by
    simpa [ColInfo.samples, List.length_eq_zero] using hs
  cases hb : o.branch with
  | true =>
    refine ⟨pick s 0 o.sIdx, by simp [generateSimilarValue, h0, hb], ?_⟩
    exact hsb _ (pick_mem s 0 o.sIdx hs)
  | false =>
    refine ⟨mn + (mx - mn) * o.frac, by simp [generateSimilarValue, h0, hb, pyUniform], ?_, ?_⟩
    · nlinarith
    · nlinarith

/-! ### Claim C4 -/

/-- The claim C4 scenario sample: one numeric column with values 10, 20. -/
def sampleC4 : SampleTable := [⟨"v", .numeric, [.num 10, .num 20]⟩]

/-- Its profile as computed by the profiler. -/
def profC4 : List (String × ColInfo) := [("v", .numeric 10 20 [10, 20])]

/-- Scenario rates: `wrong_range_rate = 1`, everything else 0. -/
def ratesC4 : Rates := ⟨0, 0, 1, 0, 0⟩

/-- Range oracle drawing row `t` and candidate index 1 (`max + |max-min|`). -/
def rangeSeq : Nat → RangeChoices := fun t => ⟨t, 0, 1⟩

/-- Full-run oracle for the scenario counterexample. -/
def runOracleC4 : RunOracle := ⟨genZero, ⟨dupZero, nullZero, rangeSeq, tsZero, textZero⟩, List.range 10⟩

lemma listMin_pair (a b : Rat) (h : a ≤ b) : listMin [a, b] = a := by
  show min a b = a
  exact min_eq_left h

lemma listMax_pair (a b : Rat) (h : a ≤ b) : listMax [a, b] = b := by
  show max a b = b
  exact max_eq_right h

lemma profC4_eq : analyzeColumns sampleC4 = profC4 := by
  have h0 : analyzeColumns sampleC4
      = [("v", .numeric (listMin [10, 20]) (listMax [10, 20]) [10, 20])] := rfl
  rw [h0, listMin_pair 10 20 (by norm_num), listMax_pair 10 20 (by norm_num)]
  rfl

lemma wrongValues_10_20 : wrongValues 10 20 = [0, 30, -999999, 999999, 0] := by
  unfold wrongValues
  rw [show |(20 : Rat) - 10| = 10 by
      rw [show (20 : Rat) - 10 = 10 by norm_num]
      exact abs_of_nonneg (by norm_num),
    if_pos (by norm_num : (10 : Rat) > 0)]
  norm_num

lemma rangeStep_profC4 (o : Nat → RangeChoices) (n : Nat) (acc : Table) (t : Nat) :
    rangeStep profC4 n o acc t
      = setCell acc ((o t).rowIdx % n) "v"
          (.num (pick (wrongValues 10 20) 0 ((o t).valIdx))) := by
  unfold rangeStep
  rw [if_neg (by decide : ¬ numericPairs profC4 = []),
    show numericPairs profC4 = [("v", ColInfo.numeric 10 20 [10, 20])] from rfl,
    pick_singleton]

/-- C4, counterexample: in the claim's own scenario (sample [10, 20],
`target_rows = 10`, `wrong_range_rate = 1`) a run exists whose first output
row holds 30 = max + |max − min|, and 30 is not in the claim's candidate
set {−10, 40, −999999, 999999, −1}; the code's set for this profile is
{0, 30, −999999, 999999}. -/
theorem wrong_ranges_scenario_counterexample :
    (generateMessyData sampleC4 10 ratesC4 runOracleC4).rows.getD 0 [] = [Value.num 30] ∧
    (30 : Rat) ∉ ([-10, 40, -999999, 999999, -1] : List Rat) := by
  constructor
  · rw [generateMessyData_eq, introduceMessiness_eq, profC4_eq,
      show ratesC4.duplicateRate = 0 from rfl, show ratesC4.nullRate = 0 from rfl,
      show ratesC4.wrongTimestampRate = 0 from rfl,
      show ratesC4.textCorruptionRate = 0 from rfl,
      show ratesC4.wrongRangeRate = 1 from rfl,
      addSmartDuplicates_zero, addStrategicNulls_zero]
    rw [addTextCorruption_zero, addWrongTimestamps_zero]
    have hexp : expandData profC4 10 runOracleC4.gen
        = ⟨["v"], (List.range 10).map (fun _ => [Value.num 10])⟩ := rfl
    rw [hexp, addWrongRanges_eq_foldl]
    have hnw : pyInt (((Table.mk ["v"] ((List.range 10).map (fun _ => [Value.num 10]))).rows.length : Rat) * 1) = 10 := by
      show pyInt (((10 : Nat) : Rat) * 1) = 10
      norm_num [pyInt_eq_natFloor]
    rw [hnw]
    have hstep : rangeStep profC4 (Table.mk ["v"] ((List.range 10).map (fun _ => [Value.num 10]))).rows.length runOracleC4.mess.ranges
        = fun acc t => setCell acc (t % 10) "v" (Value.num 30) := by
      funext acc t
      rw [rangeStep_profC4, wrongValues_10_20]
      rfl
    rw [hstep]
    decide
  · norm_num

/-- C4, amended: whenever a numeric column exists, every draw of the pass
overwrites a randomly chosen (row, numeric column) cell with a value picked
from `{min − |max−min|, max + |max−min|, −999999, 999999, (0 if min > 0
else −1)}`, recomputed from that column's profile per draw; for the
scenario profile min=10, max=20 this set is {0, 30, −999999, 999999}
(not the claimed {−10, 40, −999999, 999999, −1}), and every cell of the
scenario output either comes from that set (rows that were hit) or is an
expansion value inside [10, 20] (rows never drawn). -/
theorem wrong_ranges_spec :
    (∀ (profiles : List (String × ColInfo)) (n : Nat) (o : Nat → RangeChoices)
        (acc : Table) (t : Nat),
      numericPairs profiles ≠ [] →
      ∃ p ∈ numericPairs profiles, ∃ mn mx s, p.2 = ColInfo.numeric mn mx s ∧
        rangeStep profiles n o acc t
          = setCell acc ((o t).rowIdx % n) p.1
              (.num (pick (wrongValues mn mx) 0 (o t).valIdx)) ∧
        pick (wrongValues mn mx) 0 (o t).valIdx ∈ wrongValues mn mx) ∧
    wrongValues 10 20 = [0, 30, -999999, 999999, 0] ∧
    (∀ o : RunOracle, (∀ i c, 0 ≤ (o.gen i c).frac ∧ (o.gen i c).frac < 1) →
      (generateMessyData sampleC4 10 ratesC4 o).allCells (fun v =>
        ∃ q, v = .num q ∧ (q ∈ wrongValues 10 20 ∨ (10 ≤ q ∧ q ≤ 20)))) := by
  have hA : ∀ (profiles : List (String × ColInfo)) (n : Nat) (o : Nat → RangeChoices)
      (acc : Table) (t : Nat),
      numericPairs profiles ≠ [] →
      ∃ p ∈ numericPairs profiles, ∃ mn mx s, p.2 = ColInfo.numeric mn mx s ∧
        rangeStep profiles n o acc t
          = setCell acc ((o t).rowIdx % n) p.1
              (.num (pick (wrongValues mn mx) 0 (o t).valIdx)) ∧
        pick (wrongValues mn mx) 0 (o t).valIdx ∈ wrongValues mn mx := by
    intro profiles n o acc t hne
    rcases hqe : pick (numericPairs profiles) ("", ColInfo.mixed) ((o t).colIdx)
      with ⟨c, info⟩
    have hmem : (c, info) ∈ numericPairs profiles := by
      rw [← hqe]
      exact pick_mem _ _ _ hne
    have hnum : info.isNumeric := (List.mem_filter.mp hmem).2
    cases info with
    | numeric mn mx s =>
      refine ⟨(c, .numeric mn mx s), hmem, mn, mx, s, rfl, ?_,
        pick_mem _ _ _ (by simp [wrongValues])⟩
      unfold rangeStep
      rw [if_neg hne, hqe]
    | mixed => simp [ColInfo.isNumeric] at hnum
    | datetime mn mx s => simp [ColInfo.isNumeric] at hnum
    | categorical s uv => simp [ColInfo.isNumeric] at hnum
    | text s uv => simp [ColInfo.isNumeric] at hnum
  refine ⟨hA, wrongValues_10_20, ?_⟩
  intro o hfrac
  rw [generateMessyData_eq, introduceMessiness_eq, profC4_eq,
    show ratesC4.duplicateRate = 0 from rfl, show ratesC4.nullRate = 0 from rfl,
    show ratesC4.wrongTimestampRate = 0 from rfl,
    show ratesC4.textCorruptionRate = 0 from rfl,
    show ratesC4.wrongRangeRate = 1 from rfl,
    addSmartDuplicates_zero, addStrategicNulls_zero,
    addTextCorruption_zero, addWrongTimestamps_zero]
  apply allCells_shuffle
  rw [addWrongRanges_eq_foldl]
  apply allCells_foldl
  · intro tb b htb
    obtain ⟨p, hp, mn, mx, s, hps, heq, hmemv⟩ :=
      hA profC4 (expandData profC4 10 o.gen).rows.length o.mess.ranges tb b (by decide)
    have hp' : p = ("v", ColInfo.numeric 10 20 [10, 20]) := by
      have : numericPairs profC4 = [("v", ColInfo.numeric 10 20 [10, 20])] := rfl
      rw [this] at hp
      simpa using hp
    rw [hp'] at hps heq
    injection hps with h1 h2 h3
    subst h1
    subst h2
    subst h3
    rw [heq]
    exact allCells_setCell _ _ _ _ _ htb ⟨_, rfl, Or.inl hmemv⟩
  · have hrows : (expandData profC4 10 o.gen).rows
        = (List.range 10).map (fun i =>
            [generateSimilarValue (ColInfo.numeric 10 20 [10, 20]) (o.gen i "v")]) := rfl
    intro row hrow x hx
    rw [hrows] at hrow
    rcases List.mem_map.mp hrow with ⟨i, _, rfl⟩
    have hx' : x = generateSimilarValue (ColInfo.numeric 10 20 [10, 20]) (o.gen i "v") := by
      simpa using hx
    subst hx'
    have hsb : ∀ y ∈ ([10, 20] : List Rat), 10 ≤ y ∧ y ≤ 20 := by
      intro y hy
      rcases List.mem_cons.mp hy with rfl | hy
      · constructor <;> norm_num
      · rcases List.mem_singleton.mp hy with rfl
        constructor <;> norm_num
    obtain ⟨q, hq, hq1, hq2⟩ := genValue_numeric_bounds 10 20 [10, 20] (o.gen i "v")
      (by simp) (hfrac i "v").1 (hfrac i "v").2 (by norm_num) hsb
    exact ⟨q, hq, Or.inr ⟨hq1, hq2⟩⟩

/-- Witness for C4: concrete oracles satisfy the RNG contract, and the
step-shape conjunct applies at the scenario profile. -/
theorem wrong_ranges_spec_witness :
    (∃ p ∈ numericPairs profC4, ∃ mn mx s, p.2 = ColInfo.numeric mn mx s ∧
      rangeStep profC4 10 rangeSeq dfOneCell 0
        = setCell dfOneCell ((rangeSeq 0).rowIdx % 10) p.1
            (.num (pick (wrongValues mn mx) 0 (rangeSeq 0).valIdx)) ∧
      pick (wrongValues mn mx) 0 (rangeSeq 0).valIdx ∈ wrongValues mn mx) ∧
    (generateMessyData sampleC4 10 ratesC4 runOracleC4).allCells (fun v =>
      ∃ q, v = .num q ∧ (q ∈ wrongValues 10 20 ∨ (10 ≤ q ∧ q ≤ 20))) :=
  ⟨wrong_ranges_spec.1 profC4 10 rangeSeq dfOneCell 0 (by decide),
   wrong_ranges_spec.2.2 runOracleC4 (fun i c => by constructor <;> norm_num [runOracleC4, genZero, cellZero])⟩

lemma lookupD_profiles : ∀ (profiles : List (String × ColInfo))
    (g : String × ColInfo → Value) (p : String × ColInfo), p ∈ profiles →
    (profiles.map Prod.fst).Nodup →
    lookupD (profiles.map (fun q => (q.1, g q))) p.1 = g p := by
  intro profiles
  induction profiles with
  | nil => intro g p hp; simp at hp
  | cons q rest ih =>
    intro g p hp hnd
    by_cases hq : q.1 = p.1
    · have hpq : p = q := by
        rcases List.mem_cons.mp hp with rfl | hp'
        · rfl
        · exact absurd (hq ▸ List.mem_map_of_mem Prod.fst hp')
            (List.nodup_cons.mp hnd).1
      subst hpq
      unfold lookupD
      simp [List.find?_cons, hq]
    · have hp' : p ∈ rest := by
        rcases List.mem_cons.mp hp with rfl | hp'
        · exact absurd rfl hq
        · exact hp'
      have := ih g p hp' (List.nodup_cons.mp hnd).2
      unfold lookupD at this ⊢
      simpa [List.find?_cons, hq] using this

lemma expandData_rows_shape (profiles : List (String × ColInfo)) (n : Nat)
    (o : Nat → String → CellChoices) (hn : 1 ≤ n)
    (hnd : (profiles.map Prod.fst).Nodup) :
    (expandData profiles n o).rows = (List.range n).map (fun i =>
      profiles.map (fun p => generateSimilarValue p.2 (o i p.1))) := by
  have hcols := expandData_cols profiles n o hn hnd
  calc (expandData profiles n o).rows
      = ((List.range n).map (fun i =>
          profiles.map (fun p => (p.1, generateSimilarValue p.2 (o i p.1))))).map
          (fun r => (expandData profiles n o).cols.map (fun c => lookupD r c)) := rfl
    _ = ((List.range n).map (fun i =>
          profiles.map (fun p => (p.1, generateSimilarValue p.2 (o i p.1))))).map
          (fun r => (profiles.map Prod.fst).map (fun c => lookupD r c)) := by rw [hcols]
    _ = (List.range n).map (fun i => (profiles.map Prod.fst).map (fun c =>
          lookupD (profiles.map (fun p => (p.1, generateSimilarValue p.2 (o i p.1)))) c)) := by
        rw [List.map_map]
        rfl
    _ = (List.range n).map (fun i =>
          profiles.map (fun p => generateSimilarValue p.2 (o i p.1))) := by
        apply List.map_congr_left
        intro i _
        rw [List.map_map]
        apply List.map_congr_left
        intro p hp
        exact lookupD_profiles profiles
          (fun q => generateSimilarValue q.2 (o i q.1)) p hp hnd

lemma genValue_datetime_bounds (mn mx : Rat) (s : List Rat) (o : CellChoices)
    (hs : s ≠ []) (hf0 : 0 ≤ o.frac) (hf1 : o.frac < 1) (hmn : mn ≤ mx)
    (hsb : ∀ y ∈ s, mn ≤ y ∧ y ≤ mx) :
    ∃ q, generateSimilarValue (.datetime mn mx s) o = .dt q ∧ mn ≤ q ∧ q ≤ mx := by
  have h0 : ¬ ((ColInfo.datetime mn mx s).samples.length = 0) := by
    simpa [ColInfo.samples, List.length_eq_zero] using hs
  cases hb : o.branch with
  | true =>
    refine ⟨pick s 0 o.sIdx, by simp [generateSimilarValue, h0, hb], ?_⟩
    exact hsb _ (pick_mem s 0 o.sIdx hs)
  | false =>
    refine ⟨mn + (mx - mn) * o.frac, by simp [generateSimilarValue, h0, hb, pyUniform], ?_, ?_⟩
    · nlinarith
    · nlinarith

/-! ### Claim C9 -/

/-- The claim C9 scenario sample: numeric `id` over [1, 5], text `name`
with values Alice and Bob, datetime `joined` over
[2020-01-01, 2020-06-01] (epoch seconds 1577836800 and 1590969600). -/
def sampleC9 : SampleTable :=
  [⟨"id", .numeric, [.num 1, .num 5]⟩,
   ⟨"name", .object, [.str "Alice", .str "Bob"]⟩,
   ⟨"joined", .datetime, [.dt 1577836800, .dt 1590969600]⟩]

/-- The profiles the profiler computes for it. -/
def profC9 : List (String × ColInfo) :=
  [("id", .numeric 1 5 [1, 5]),
   ("name", .text [.str "Alice", .str "Bob"] [.str "Alice", .str "Bob"]),
   ("joined", .datetime 1577836800 1590969600 [1577836800, 1590969600])]

/-- All five rates zero. -/
def rates0 : Rates := ⟨0, 0, 0, 0, 0⟩

/-- Full-run oracle for the C9 counterexample: constant cell choices and
the identity permutation of 100 rows. -/
def runOracleC9 : RunOracle := ⟨genZero, messZero, List.range 100⟩

lemma profC9_eq : analyzeColumns sampleC9 = profC9 := by
  have hid : analyzeColumn ⟨"id", .numeric, [.num 1, .num 5]⟩
      = .numeric 1 5 [1, 5] := by
    rw [analyzeColumn_numeric_dtype _ (by decide) rfl]
    show ColInfo.numeric (listMin [1, 5]) (listMax [1, 5]) [1, 5] = _
    rw [listMin_pair 1 5 (by norm_num), listMax_pair 1 5 (by norm_num)]
  have hname : analyzeColumn ⟨"name", .object, [.str "Alice", .str "Bob"]⟩
      = .text [.str "Alice", .str "Bob"] [.str "Alice", .str "Bob"] := by
    rw [analyzeColumn_object_text _ (by decide) (by decide) (by decide) ?_]
    · rfl
    · show ¬ ((uniqueList [Value.str "Alice", Value.str "Bob"]).length : Rat)
        < (([Value.str "Alice", Value.str "Bob"] : List Value).length : Rat) * 0.8
      rw [show (uniqueList [Value.str "Alice", Value.str "Bob"]).length = 2 from rfl,
        show ([Value.str "Alice", Value.str "Bob"] : List Value).length = 2 from rfl]
      norm_num
  have hjoined : analyzeColumn ⟨"joined", .datetime, [.dt 1577836800, .dt 1590969600]⟩
      = .datetime 1577836800 1590969600 [1577836800, 1590969600] := by
    rw [analyzeColumn_datetime_dtype _ (by decide) rfl]
    show ColInfo.datetime (listMin [1577836800, 1590969600])
      (listMax [1577836800, 1590969600]) [1577836800, 1590969600] = _
    rw [listMin_pair _ _ (by norm_num), listMax_pair _ _ (by norm_num)]
  show [("id", analyzeColumn _), ("name", analyzeColumn _), ("joined", analyzeColumn _)] = _
  rw [hid, hname, hjoined]
  rfl

set_option maxRecDepth 8000 in
set_option maxHeartbeats 1000000 in
/-- C9, counterexample: a valid run (all rates 0, identity shuffle,
constant resampling choices) outputs 100 rows of which the first two are
identical — "zero exact-duplicate rows on every run" is false, since
expansion resamples from few distinct values. -/
theorem pipeline_run_with_duplicate_rows :
    (generateMessyData sampleC9 100 rates0 runOracleC9).rows.length = 100 ∧
    (generateMessyData sampleC9 100 rates0 runOracleC9).rows.getD 0 []
      = (generateMessyData sampleC9 100 rates0 runOracleC9).rows.getD 1 [] ∧
    (generateMessyData sampleC9 100 rates0 runOracleC9).rows.getD 0 []
      = [.num 1, .str "Alice", .dt 1577836800] := by
  have hred : generateMessyData sampleC9 100 rates0 runOracleC9
      = shuffleRows (List.range 100) (expandData profC9 100 genZero) := by
    rw [generateMessyData_eq, introduceMessiness_eq, profC9_eq,
      show rates0.duplicateRate = 0 from rfl, show rates0.nullRate = 0 from rfl,
      show rates0.wrongRangeRate = 0 from rfl, show rates0.wrongTimestampRate = 0 from rfl,
      show rates0.textCorruptionRate = 0 from rfl,
      addSmartDuplicates_zero, addStrategicNulls_zero, addWrongRanges_zero,
      addWrongTimestamps_zero, addTextCorruption_zero]
    rfl
  rw [hred]
  refine ⟨?_, ?_, ?_⟩
  · decide
  · decide
  · decide

set_option maxRecDepth 8000 in
set_option maxHeartbeats 1000000 in
/-- C9, amended: for every valid run (fractions in [0,1), shuffle a
permutation) the output has exactly 100 rows, zero null cells, every id a
number in [1, 5], every name a string, and every joined a timestamp in
[2020-01-01, 2020-06-01]; the "zero exact-duplicate rows" part of the
claim is dropped, as resampling can repeat whole rows. -/
theorem pipeline_scenario_spec (o : RunOracle)
    (hfrac : ∀ i c, 0 ≤ (o.gen i c).frac ∧ (o.gen i c).frac < 1)
    (hperm : o.perm.Perm (List.range 100)) :
    (generateMessyData sampleC9 100 rates0 o).rows.length = 100 ∧
    (generateMessyData sampleC9 100 rates0 o).nullCount = 0 ∧
    (generateMessyData sampleC9 100 rates0 o).allRows (fun row =>
      (∃ x, row.getD 0 .null = .num x ∧ 1 ≤ x ∧ x ≤ 5) ∧
      (∃ s, row.getD 1 .null = .str s) ∧
      (∃ tv, row.getD 2 .null = .dt tv ∧ 1577836800 ≤ tv ∧ tv ≤ 1590969600)) := by
  have hred : generateMessyData sampleC9 100 rates0 o
      = shuffleRows o.perm (expandData profC9 100 o.gen) := by
    rw [generateMessyData_eq, introduceMessiness_eq, profC9_eq,
      show rates0.duplicateRate = 0 from rfl, show rates0.nullRate = 0 from rfl,
      show rates0.wrongRangeRate = 0 from rfl, show rates0.wrongTimestampRate = 0 from rfl,
      show rates0.textCorruptionRate = 0 from rfl,
      addSmartDuplicates_zero, addStrategicNulls_zero, addWrongRanges_zero,
      addWrongTimestamps_zero, addTextCorruption_zero]
  have hexplen : (expandData profC9 100 o.gen).rows.length = 100 :=
    expandData_rows_length ..
  have hrows : (expandData profC9 100 o.gen).rows
      = (List.range 100).map (fun i =>
          [generateSimilarValue (ColInfo.numeric 1 5 [1, 5]) (o.gen i "id"),
           generateSimilarValue
             (ColInfo.text [.str "Alice", .str "Bob"] [.str "Alice", .str "Bob"])
             (o.gen i "name"),
           generateSimilarValue
             (ColInfo.datetime 1577836800 1590969600 [1577836800, 1590969600])
             (o.gen i "joined")]) := by
    rw [expandData_rows_shape profC9 100 o.gen (by omega) (by decide)]
    rfl
  have hcells : ∀ i : Nat,
      (∃ x, generateSimilarValue (ColInfo.numeric 1 5 [1, 5]) (o.gen i "id") = .num x ∧
        1 ≤ x ∧ x ≤ 5) ∧
      (∃ s, generateSimilarValue
          (ColInfo.text [.str "Alice", .str "Bob"] [.str "Alice", .str "Bob"])
          (o.gen i "name") = .str s) ∧
      (∃ tv, generateSimilarValue
          (ColInfo.datetime 1577836800 1590969600 [1577836800, 1590969600])
          (o.gen i "joined") = .dt tv ∧ 1577836800 ≤ tv ∧ tv ≤ 1590969600) := by
    intro i
    refine ⟨?_, ?_, ?_⟩
    · refine genValue_numeric_bounds 1 5 [1, 5] (o.gen i "id") (by simp)
        (hfrac i "id").1 (hfrac i "id").2 (by norm_num) ?_
      intro y hy
      rcases List.mem_cons.mp hy with rfl | hy
      · constructor <;> norm_num
      · rcases List.mem_singleton.mp hy with rfl
        constructor <;> norm_num
    · refine genValue_text_isStr _ _ (o.gen i "name") ?_ (by simp)
      intro v hv
      rcases List.mem_cons.mp hv with rfl | hv
      · exact ⟨"Alice", rfl⟩
      · rcases List.mem_singleton.mp hv with rfl
        exact ⟨"Bob", rfl⟩
    · refine genValue_datetime_bounds _ _ [1577836800, 1590969600] (o.gen i "joined")
        (by simp) (hfrac i "joined").1 (hfrac i "joined").2 (by norm_num) ?_
      intro y hy
      rcases List.mem_cons.mp hy with rfl | hy
      · constructor <;> norm_num
      · rcases List.mem_singleton.mp hy with rfl
        constructor <;> norm_num
  have hrowsP : (expandData profC9 100 o.gen).allRows (fun row =>
      (∃ x, row.getD 0 .null = .num x ∧ 1 ≤ x ∧ x ≤ 5) ∧
      (∃ s, row.getD 1 .null = .str s) ∧
      (∃ tv, row.getD 2 .null = .dt tv ∧ 1577836800 ≤ tv ∧ tv ≤ 1590969600)) := by
    intro row hrow
    rw [hrows] at hrow
    rcases List.mem_map.mp hrow with ⟨i, _, rfl⟩
    obtain ⟨⟨x, hx, hx1, hx2⟩, ⟨s, hs⟩, ⟨tv, htv, htv1, htv2⟩⟩ := hcells i
    exact ⟨⟨x, by rw [List.getD_cons_zero, hx], hx1, hx2⟩,
      ⟨s, by rw [List.getD_cons_succ, List.getD_cons_zero, hs]⟩,
      ⟨tv, by rw [List.getD_cons_succ, List.getD_cons_succ, List.getD_cons_zero, htv],
        htv1, htv2⟩⟩
  have hcellsNN : (expandData profC9 100 o.gen).allCells (fun v => v.isNull = false) := by
    intro row hrow x hx
    rw [hrows] at hrow
    rcases List.mem_map.mp hrow with ⟨i, _, rfl⟩
    obtain ⟨⟨x1, hx1, -, -⟩, ⟨s, hs⟩, ⟨tv, htv, -, -⟩⟩ := hcells i
    rcases List.mem_cons.mp hx with rfl | hx
    · rw [hx1]; rfl
    rcases List.mem_cons.mp hx with rfl | hx
    · rw [hs]; rfl
    rcases List.mem_singleton.mp hx with rfl
    rw [htv]; rfl
  rw [hred]
  refine ⟨?_, ?_, ?_⟩
  · rw [shuffleRows_rows_length _ _ (by rw [hexplen]; exact hperm)]
    exact hexplen
  · exact nullCount_eq_zero_of_allCells _ (allCells_shuffle _ _ _ hcellsNN)
  · exact allRows_shuffle _ _ _ hrowsP (by rw [hexplen]; exact hperm)

/-- Witness for C9's amended theorem at the concrete constant oracle. -/
theorem pipeline_scenario_spec_witness :
    (generateMessyData sampleC9 100 rates0 runOracleC9).rows.length = 100 ∧
    (generateMessyData sampleC9 100 rates0 runOracleC9).nullCount = 0 :=
  ⟨(pipeline_scenario_spec runOracleC9
      (fun i c => by constructor <;> norm_num [runOracleC9, genZero, cellZero])
      (List.Perm.refl _)).1,
   (pipeline_scenario_spec runOracleC9
      (fun i c => by constructor <;> norm_num [runOracleC9, genZero, cellZero])
      (List.Perm.refl _)).2.1⟩

end MessyGen
